import Mathlib

/-!
SPIRE datastore decorators: a shallow embedding of

* `pkg/agent/config.go`: the rebootstrap mode constants,
* `pkg/common/telemetry/server/datastore/wrapper.go`: the metrics wrapper
  `metricsWrapper` returned by `WithMetrics`,
* `test/fakes/fakedatastore/fakedatastore.go`: the fake `DataStore` with its
  queue of injected errors.

Go values are embedded as follows: a pointer that may be nil is an `Option`, a
slice is a `List` (nil is the empty list), `string` is `String`, the integer
types are `Int` or `Nat`, `error` is `Option Error` with `none` for nil.  A
mutable object is passed in and returned explicitly.
-/

namespace agent

/-- The constant `RebootstrapNever` of `pkg/agent/config.go`. -/
def RebootstrapNever : String := "never"

/-- The constant `RebootstrapAuto` of `pkg/agent/config.go`. -/
def RebootstrapAuto : String := "auto"

/-- The constant `RebootstrapAlways` of `pkg/agent/config.go`. -/
def RebootstrapAlways : String := "always"

/-- The fields of `Config` that select the rebootstrap behaviour (the other
fields of the struct play no part here). -/
structure Config where
  RetryBootstrap : Bool
  RebootstrapMode : String
  RebootstrapDelay : Int
  deriving DecidableEq, Repr

end agent

namespace datastore

/-- Status codes of the error taxonomy; `Unknown` stands for an error that
carries no code. -/
inductive Code where
  | NotFound | AlreadyExists | InvalidArgument | Internal | Canceled | Unknown
  deriving DecidableEq, Repr

/-- A non-nil Go `error` value. -/
structure Error where
  code : Code
  msg : String
  deriving DecidableEq, Repr

/-- Go `error`: `none` is nil. -/
abbrev error := Option Error

/-- A `context.Context`, handed through unchanged by every operation. -/
structure Context where
  id : Nat
  deriving DecidableEq, Repr

/-- Modelled from the spec: `common.Selector` (declared outside src/), an
attribute used to match a workload to a registration entry. -/
structure Selector where
  Typ : String
  Value : String
  deriving DecidableEq, Repr

/-- Modelled from the spec: `common.Bundle` (declared outside src/), the trust
anchors and JWT signing keys of one trust domain.  `TrustDomainId` is the field
the fake datastore sorts by. -/
structure Bundle where
  TrustDomainId : String
  RootCas : List String
  JwtSigningKeys : List String
  deriving DecidableEq, Repr

/-- Modelled from the spec: `common.BundleMask` (declared outside src/). -/
structure BundleMask where
  RootCas : Bool
  JwtSigningKeys : Bool
  deriving DecidableEq, Repr

/-- Modelled from the spec: `common.AttestedNode` (declared outside src/). -/
structure AttestedNode where
  SpiffeId : String
  AttestationDataType : String
  CertSerialNumber : String
  CertNotAfter : Int
  NewCertSerialNumber : String
  NewCertNotAfter : Int
  Selectors : List Selector
  CanReattest : Bool
  deriving DecidableEq, Repr

/-- Modelled from the spec: `common.AttestedNodeMask` (declared outside src/). -/
structure AttestedNodeMask where
  AttestationDataType : Bool
  CertSerialNumber : Bool
  CertNotAfter : Bool
  NewCertSerialNumber : Bool
  NewCertNotAfter : Bool
  CanReattest : Bool
  deriving DecidableEq, Repr

/-- Modelled from the spec: `common.RegistrationEntry` (declared outside
src/).  The uniqueness key is `(ParentId, SpiffeId, Selectors)`. -/
structure RegistrationEntry where
  EntryId : String
  ParentId : String
  SpiffeId : String
  Selectors : List Selector
  X509SvidTtl : Int
  Admin : Bool
  Downstream : Bool
  DnsNames : List String
  RevisionNumber : Int
  FederatesWith : List String
  deriving DecidableEq, Repr

/-- Modelled from the spec: `common.RegistrationEntryMask` (declared outside
src/). -/
structure RegistrationEntryMask where
  SpiffeId : Bool
  ParentId : Bool
  Selectors : Bool
  X509SvidTtl : Bool
  Admin : Bool
  Downstream : Bool
  DnsNames : Bool
  FederatesWith : Bool
  deriving DecidableEq, Repr

/-- Modelled from the spec: `datastore.AttestedNodeEvent` (declared outside
src/), a row of the attested node event log. -/
structure AttestedNodeEvent where
  EventID : Nat
  SpiffeID : String
  deriving DecidableEq, Repr

/-- Modelled from the spec: `datastore.RegistrationEntryEvent` (declared
outside src/), a row of the registration entry event log. -/
structure RegistrationEntryEvent where
  EventID : Nat
  EntryID : String
  deriving DecidableEq, Repr

/-- Modelled from the spec: `datastore.JoinToken` (declared outside src/), a
one-time attestation token with its expiry. -/
structure JoinToken where
  Token : String
  Expiry : Int
  deriving DecidableEq, Repr

/-- Modelled from the spec: `spiffeid.TrustDomain`, a name-like identifier. -/
structure TrustDomain where
  name : String
  deriving DecidableEq, Repr

/-- Modelled from the spec: `datastore.FederationRelationship` (declared
outside src/): a foreign trust domain, its fetch profile and cached bundle. -/
structure FederationRelationship where
  TrustDomain : TrustDomain
  BundleEndpointURL : String
  BundleEndpointProfile : String
  TrustDomainBundle : Option Bundle
  deriving DecidableEq, Repr

/-- Modelled from the spec: `types.FederationRelationshipMask` (declared
outside src/). -/
structure FederationRelationshipMask where
  BundleEndpointUrl : Bool
  BundleEndpointProfile : Bool
  TrustDomainBundle : Bool
  deriving DecidableEq, Repr

/-- Modelled from the spec: `datastore.CAJournal` (declared outside src/). -/
structure CAJournal where
  ID : Nat
  Data : List Nat
  ActiveX509AuthorityID : String
  deriving DecidableEq, Repr

/-- Modelled from the spec: `common.PublicKey` (declared outside src/), the
public key material returned by the JWT taint and revoke operations. -/
structure PublicKey where
  Kid : String
  PkixBytes : List Nat
  NotAfter : Int
  TaintedKey : Bool
  deriving DecidableEq, Repr

/-- Modelled from the spec: `datastore.DeleteMode` (declared outside src/). -/
inductive DeleteMode where
  | Restrict | Delete | Dissociate
  deriving DecidableEq, Repr

/-- Modelled from the spec: `datastore.DataConsistency` (declared outside
src/): a strong read or a stale-tolerant one. -/
inductive DataConsistency where
  | RequireConsistency | TolerateStale
  deriving DecidableEq, Repr

/-- Modelled from the spec: `datastore.Pagination` (declared outside src/). -/
structure Pagination where
  Token : String
  PageSize : Int
  deriving DecidableEq, Repr

/-- Modelled from the spec: `datastore.ListBundlesRequest`. -/
structure ListBundlesRequest where
  Pagination : Option Pagination
  deriving DecidableEq, Repr

/-- Modelled from the spec: `datastore.ListBundlesResponse`.  `Bundles` is a
slice of pointers, each of which may be nil. -/
structure ListBundlesResponse where
  Bundles : List (Option Bundle)
  Pagination : Option Pagination
  deriving DecidableEq, Repr

/-- Modelled from the spec: `datastore.ListAttestedNodesRequest`. -/
structure ListAttestedNodesRequest where
  ByAttestationType : String
  ByExpiresBefore : Int
  FetchSelectors : Bool
  Pagination : Option Pagination
  deriving DecidableEq, Repr

/-- Modelled from the spec: `datastore.ListAttestedNodesResponse`. -/
structure ListAttestedNodesResponse where
  Nodes : List (Option AttestedNode)
  Pagination : Option Pagination
  deriving DecidableEq, Repr

/-- Modelled from the spec: `datastore.CountAttestedNodesRequest`. -/
structure CountAttestedNodesRequest where
  ByAttestationType : String
  ByExpiresBefore : Int
  deriving DecidableEq, Repr

/-- Modelled from the spec: `datastore.ListAttestedNodeEventsRequest`. -/
structure ListAttestedNodeEventsRequest where
  GreaterThanEventID : Nat
  LessThanEventID : Nat
  DataConsistency : DataConsistency
  deriving DecidableEq, Repr

/-- Modelled from the spec: `datastore.ListAttestedNodeEventsResponse`. -/
structure ListAttestedNodeEventsResponse where
  Events : List AttestedNodeEvent
  deriving DecidableEq, Repr

/-- Modelled from the spec: `datastore.ListNodeSelectorsRequest`. -/
structure ListNodeSelectorsRequest where
  DataConsistency : DataConsistency
  ValidAt : Int
  deriving DecidableEq, Repr

/-- Modelled from the spec: `datastore.ListNodeSelectorsResponse`: the
selectors of each node, by SPIFFE ID. -/
structure ListNodeSelectorsResponse where
  Selectors : List (String × List (Option Selector))
  deriving DecidableEq, Repr

/-- Modelled from the spec: `datastore.ListRegistrationEntriesRequest`. -/
structure ListRegistrationEntriesRequest where
  DataConsistency : DataConsistency
  ByParentID : String
  BySpiffeID : String
  Pagination : Option Pagination
  deriving DecidableEq, Repr

/-- Modelled from the spec: `datastore.ListRegistrationEntriesResponse`. -/
structure ListRegistrationEntriesResponse where
  Entries : List (Option RegistrationEntry)
  Pagination : Option Pagination
  deriving DecidableEq, Repr

/-- Modelled from the spec: `datastore.CountRegistrationEntriesRequest`. -/
structure CountRegistrationEntriesRequest where
  DataConsistency : DataConsistency
  ByParentID : String
  BySpiffeID : String
  deriving DecidableEq, Repr

/-- Modelled from the spec: `datastore.ListRegistrationEntryEventsRequest`. -/
structure ListRegistrationEntryEventsRequest where
  GreaterThanEventID : Nat
  LessThanEventID : Nat
  DataConsistency : DataConsistency
  deriving DecidableEq, Repr

/-- Modelled from the spec: `datastore.ListRegistrationEntryEventsResponse`. -/
structure ListRegistrationEntryEventsResponse where
  Events : List RegistrationEntryEvent
  deriving DecidableEq, Repr

/-- Modelled from the spec: `datastore.ListFederationRelationshipsRequest`. -/
structure ListFederationRelationshipsRequest where
  Pagination : Option Pagination
  deriving DecidableEq, Repr

/-- Modelled from the spec: `datastore.ListFederationRelationshipsResponse`. -/
structure ListFederationRelationshipsResponse where
  FederationRelationships : List (Option FederationRelationship)
  Pagination : Option Pagination
  deriving DecidableEq, Repr

end datastore

namespace datastore

/-- The operations of the `datastore.DataStore` interface, one constructor per
method of `metricsWrapper`, in the order of `wrapper.go`. -/
inductive Op where
  | AppendBundle
  | CreateAttestedNode
  | CreateAttestedNodeEventForTesting
  | CreateBundle
  | CreateJoinToken
  | CreateRegistrationEntry
  | CreateOrReturnRegistrationEntry
  | CreateRegistrationEntryEventForTesting
  | CreateFederationRelationship
  | ListFederationRelationships
  | DeleteAttestedNode
  | DeleteAttestedNodeEventForTesting
  | DeleteBundle
  | DeleteFederationRelationship
  | DeleteJoinToken
  | DeleteRegistrationEntry
  | DeleteRegistrationEntryEventForTesting
  | FetchAttestedNode
  | FetchAttestedNodeEvent
  | FetchBundle
  | FetchJoinToken
  | FetchRegistrationEntry
  | FetchRegistrationEntries
  | FetchRegistrationEntryEvent
  | FetchFederationRelationship
  | GetNodeSelectors
  | ListAttestedNodes
  | ListAttestedNodeEvents
  | ListBundles
  | ListNodeSelectors
  | ListRegistrationEntries
  | ListRegistrationEntryEvents
  | CountAttestedNodes
  | CountBundles
  | CountRegistrationEntries
  | PruneAttestedNodeEvents
  | PruneBundle
  | PruneJoinTokens
  | PruneRegistrationEntries
  | PruneRegistrationEntryEvents
  | PruneAttestedExpiredNodes
  | SetBundle
  | TaintX509CA
  | RevokeX509CA
  | TaintJWTKey
  | RevokeJWTKey
  | SetNodeSelectors
  | UpdateAttestedNode
  | UpdateBundle
  | UpdateRegistrationEntry
  | UpdateFederationRelationship
  | SetCAJournal
  | FetchCAJournal
  | ListCAJournalsForTesting
  | PruneCAJournals
  deriving DecidableEq, Repr

/-- Every operation, in the order of `wrapper.go`. -/
def Op.all : List Op :=
  [.AppendBundle, .CreateAttestedNode, .CreateAttestedNodeEventForTesting, .CreateBundle,
   .CreateJoinToken, .CreateRegistrationEntry, .CreateOrReturnRegistrationEntry,
   .CreateRegistrationEntryEventForTesting, .CreateFederationRelationship,
   .ListFederationRelationships, .DeleteAttestedNode, .DeleteAttestedNodeEventForTesting,
   .DeleteBundle, .DeleteFederationRelationship, .DeleteJoinToken, .DeleteRegistrationEntry,
   .DeleteRegistrationEntryEventForTesting, .FetchAttestedNode, .FetchAttestedNodeEvent,
   .FetchBundle, .FetchJoinToken, .FetchRegistrationEntry, .FetchRegistrationEntries,
   .FetchRegistrationEntryEvent, .FetchFederationRelationship, .GetNodeSelectors,
   .ListAttestedNodes, .ListAttestedNodeEvents, .ListBundles, .ListNodeSelectors,
   .ListRegistrationEntries, .ListRegistrationEntryEvents, .CountAttestedNodes, .CountBundles,
   .CountRegistrationEntries, .PruneAttestedNodeEvents, .PruneBundle, .PruneJoinTokens,
   .PruneRegistrationEntries, .PruneRegistrationEntryEvents, .PruneAttestedExpiredNodes,
   .SetBundle, .TaintX509CA, .RevokeX509CA, .TaintJWTKey, .RevokeJWTKey, .SetNodeSelectors,
   .UpdateAttestedNode, .UpdateBundle, .UpdateRegistrationEntry, .UpdateFederationRelationship,
   .SetCAJournal, .FetchCAJournal, .ListCAJournalsForTesting, .PruneCAJournals]

/-- The method name of an operation, as written in the source. -/
def Op.name : Op → String
  | .AppendBundle => "AppendBundle"
  | .CreateAttestedNode => "CreateAttestedNode"
  | .CreateAttestedNodeEventForTesting => "CreateAttestedNodeEventForTesting"
  | .CreateBundle => "CreateBundle"
  | .CreateJoinToken => "CreateJoinToken"
  | .CreateRegistrationEntry => "CreateRegistrationEntry"
  | .CreateOrReturnRegistrationEntry => "CreateOrReturnRegistrationEntry"
  | .CreateRegistrationEntryEventForTesting => "CreateRegistrationEntryEventForTesting"
  | .CreateFederationRelationship => "CreateFederationRelationship"
  | .ListFederationRelationships => "ListFederationRelationships"
  | .DeleteAttestedNode => "DeleteAttestedNode"
  | .DeleteAttestedNodeEventForTesting => "DeleteAttestedNodeEventForTesting"
  | .DeleteBundle => "DeleteBundle"
  | .DeleteFederationRelationship => "DeleteFederationRelationship"
  | .DeleteJoinToken => "DeleteJoinToken"
  | .DeleteRegistrationEntry => "DeleteRegistrationEntry"
  | .DeleteRegistrationEntryEventForTesting => "DeleteRegistrationEntryEventForTesting"
  | .FetchAttestedNode => "FetchAttestedNode"
  | .FetchAttestedNodeEvent => "FetchAttestedNodeEvent"
  | .FetchBundle => "FetchBundle"
  | .FetchJoinToken => "FetchJoinToken"
  | .FetchRegistrationEntry => "FetchRegistrationEntry"
  | .FetchRegistrationEntries => "FetchRegistrationEntries"
  | .FetchRegistrationEntryEvent => "FetchRegistrationEntryEvent"
  | .FetchFederationRelationship => "FetchFederationRelationship"
  | .GetNodeSelectors => "GetNodeSelectors"
  | .ListAttestedNodes => "ListAttestedNodes"
  | .ListAttestedNodeEvents => "ListAttestedNodeEvents"
  | .ListBundles => "ListBundles"
  | .ListNodeSelectors => "ListNodeSelectors"
  | .ListRegistrationEntries => "ListRegistrationEntries"
  | .ListRegistrationEntryEvents => "ListRegistrationEntryEvents"
  | .CountAttestedNodes => "CountAttestedNodes"
  | .CountBundles => "CountBundles"
  | .CountRegistrationEntries => "CountRegistrationEntries"
  | .PruneAttestedNodeEvents => "PruneAttestedNodeEvents"
  | .PruneBundle => "PruneBundle"
  | .PruneJoinTokens => "PruneJoinTokens"
  | .PruneRegistrationEntries => "PruneRegistrationEntries"
  | .PruneRegistrationEntryEvents => "PruneRegistrationEntryEvents"
  | .PruneAttestedExpiredNodes => "PruneAttestedExpiredNodes"
  | .SetBundle => "SetBundle"
  | .TaintX509CA => "TaintX509CA"
  | .RevokeX509CA => "RevokeX509CA"
  | .TaintJWTKey => "TaintJWTKey"
  | .RevokeJWTKey => "RevokeJWTKey"
  | .SetNodeSelectors => "SetNodeSelectors"
  | .UpdateAttestedNode => "UpdateAttestedNode"
  | .UpdateBundle => "UpdateBundle"
  | .UpdateRegistrationEntry => "UpdateRegistrationEntry"
  | .UpdateFederationRelationship => "UpdateFederationRelationship"
  | .SetCAJournal => "SetCAJournal"
  | .FetchCAJournal => "FetchCAJournal"
  | .ListCAJournalsForTesting => "ListCAJournalsForTesting"
  | .PruneCAJournals => "PruneCAJournals"

/-- The parameters of each operation after the leading `ctx context.Context`,
from the method signatures: `time.Time` and `time.Duration` are `Int`, `uint`
is `Nat`, `int64` is `Int`. -/
@[reducible] def Args : Op → Type
  | .AppendBundle => Option Bundle
  | .CreateAttestedNode => Option AttestedNode
  | .CreateAttestedNodeEventForTesting => Option AttestedNodeEvent
  | .CreateBundle => Option Bundle
  | .CreateJoinToken => Option JoinToken
  | .CreateRegistrationEntry => Option RegistrationEntry
  | .CreateOrReturnRegistrationEntry => Option RegistrationEntry
  | .CreateRegistrationEntryEventForTesting => Option RegistrationEntryEvent
  | .CreateFederationRelationship => Option FederationRelationship
  | .ListFederationRelationships => Option ListFederationRelationshipsRequest
  | .DeleteAttestedNode => String
  | .DeleteAttestedNodeEventForTesting => Nat
  | .DeleteBundle => String × DeleteMode
  | .DeleteFederationRelationship => TrustDomain
  | .DeleteJoinToken => String
  | .DeleteRegistrationEntry => String
  | .DeleteRegistrationEntryEventForTesting => Nat
  | .FetchAttestedNode => String
  | .FetchAttestedNodeEvent => Nat
  | .FetchBundle => String
  | .FetchJoinToken => String
  | .FetchRegistrationEntry => String
  | .FetchRegistrationEntries => List String
  | .FetchRegistrationEntryEvent => Nat
  | .FetchFederationRelationship => TrustDomain
  | .GetNodeSelectors => String × DataConsistency
  | .ListAttestedNodes => Option ListAttestedNodesRequest
  | .ListAttestedNodeEvents => Option ListAttestedNodeEventsRequest
  | .ListBundles => Option ListBundlesRequest
  | .ListNodeSelectors => Option ListNodeSelectorsRequest
  | .ListRegistrationEntries => Option ListRegistrationEntriesRequest
  | .ListRegistrationEntryEvents => Option ListRegistrationEntryEventsRequest
  | .CountAttestedNodes => Option CountAttestedNodesRequest
  | .CountBundles => Unit
  | .CountRegistrationEntries => Option CountRegistrationEntriesRequest
  | .PruneAttestedNodeEvents => Int
  | .PruneBundle => String × Int
  | .PruneJoinTokens => Int
  | .PruneRegistrationEntries => Int
  | .PruneRegistrationEntryEvents => Int
  | .PruneAttestedExpiredNodes => Int × Bool
  | .SetBundle => Option Bundle
  | .TaintX509CA => String × String
  | .RevokeX509CA => String × String
  | .TaintJWTKey => String × String
  | .RevokeJWTKey => String × String
  | .SetNodeSelectors => String × List (Option Selector)
  | .UpdateAttestedNode => Option AttestedNode × Option AttestedNodeMask
  | .UpdateBundle => Option Bundle × Option BundleMask
  | .UpdateRegistrationEntry => Option RegistrationEntry × Option RegistrationEntryMask
  | .UpdateFederationRelationship => Option FederationRelationship × Option FederationRelationshipMask
  | .SetCAJournal => Option CAJournal
  | .FetchCAJournal => String
  | .ListCAJournalsForTesting => Unit
  | .PruneCAJournals => Int

/-- The result values of each operation other than the trailing `error`, from
the method signatures: `int32` is `Int`, a map is its list of entries, an
operation that returns only an error has `Unit`. -/
@[reducible] def Res : Op → Type
  | .AppendBundle => Option Bundle
  | .CreateAttestedNode => Option AttestedNode
  | .CreateAttestedNodeEventForTesting => Unit
  | .CreateBundle => Option Bundle
  | .CreateJoinToken => Unit
  | .CreateRegistrationEntry => Option RegistrationEntry
  | .CreateOrReturnRegistrationEntry => Option RegistrationEntry × Bool
  | .CreateRegistrationEntryEventForTesting => Unit
  | .CreateFederationRelationship => Option FederationRelationship
  | .ListFederationRelationships => Option ListFederationRelationshipsResponse
  | .DeleteAttestedNode => Option AttestedNode
  | .DeleteAttestedNodeEventForTesting => Unit
  | .DeleteBundle => Unit
  | .DeleteFederationRelationship => Unit
  | .DeleteJoinToken => Unit
  | .DeleteRegistrationEntry => Option RegistrationEntry
  | .DeleteRegistrationEntryEventForTesting => Unit
  | .FetchAttestedNode => Option AttestedNode
  | .FetchAttestedNodeEvent => Option AttestedNodeEvent
  | .FetchBundle => Option Bundle
  | .FetchJoinToken => Option JoinToken
  | .FetchRegistrationEntry => Option RegistrationEntry
  | .FetchRegistrationEntries => List (String × Option RegistrationEntry)
  | .FetchRegistrationEntryEvent => Option RegistrationEntryEvent
  | .FetchFederationRelationship => Option FederationRelationship
  | .GetNodeSelectors => List (Option Selector)
  | .ListAttestedNodes => Option ListAttestedNodesResponse
  | .ListAttestedNodeEvents => Option ListAttestedNodeEventsResponse
  | .ListBundles => Option ListBundlesResponse
  | .ListNodeSelectors => Option ListNodeSelectorsResponse
  | .ListRegistrationEntries => Option ListRegistrationEntriesResponse
  | .ListRegistrationEntryEvents => Option ListRegistrationEntryEventsResponse
  | .CountAttestedNodes => Int
  | .CountBundles => Int
  | .CountRegistrationEntries => Int
  | .PruneAttestedNodeEvents => Unit
  | .PruneBundle => Bool
  | .PruneJoinTokens => Unit
  | .PruneRegistrationEntries => Unit
  | .PruneRegistrationEntryEvents => Unit
  | .PruneAttestedExpiredNodes => Unit
  | .SetBundle => Option Bundle
  | .TaintX509CA => Unit
  | .RevokeX509CA => Unit
  | .TaintJWTKey => Option PublicKey
  | .RevokeJWTKey => Option PublicKey
  | .SetNodeSelectors => Unit
  | .UpdateAttestedNode => Option AttestedNode
  | .UpdateBundle => Option Bundle
  | .UpdateRegistrationEntry => Option RegistrationEntry
  | .UpdateFederationRelationship => Option FederationRelationship
  | .SetCAJournal => Option CAJournal
  | .FetchCAJournal => Option CAJournal
  | .ListCAJournalsForTesting => List (Option CAJournal)
  | .PruneCAJournals => Unit

/-- What a call returns: the result values and the error. -/
abbrev Ret (op : Op) : Type := Res op × error

end datastore

namespace datastore

/-- The zero result values of each operation: nil for a pointer, a slice or a
map, `0` for a count, `false` for a flag.  They are what the fake datastore
writes in its `return nil, err`, `return 0, err`, `return false, err`,
`return nil, false, err` and `return err` statements, and what the unnamed
results of a wrapper method hold before its `return` statement assigns them. -/
def zero : (op : Op) → Res op
  | .AppendBundle => none
  | .CreateAttestedNode => none
  | .CreateAttestedNodeEventForTesting => ()
  | .CreateBundle => none
  | .CreateJoinToken => ()
  | .CreateRegistrationEntry => none
  | .CreateOrReturnRegistrationEntry => (none, false)
  | .CreateRegistrationEntryEventForTesting => ()
  | .CreateFederationRelationship => none
  | .ListFederationRelationships => none
  | .DeleteAttestedNode => none
  | .DeleteAttestedNodeEventForTesting => ()
  | .DeleteBundle => ()
  | .DeleteFederationRelationship => ()
  | .DeleteJoinToken => ()
  | .DeleteRegistrationEntry => none
  | .DeleteRegistrationEntryEventForTesting => ()
  | .FetchAttestedNode => none
  | .FetchAttestedNodeEvent => none
  | .FetchBundle => none
  | .FetchJoinToken => none
  | .FetchRegistrationEntry => none
  | .FetchRegistrationEntries => []
  | .FetchRegistrationEntryEvent => none
  | .FetchFederationRelationship => none
  | .GetNodeSelectors => []
  | .ListAttestedNodes => none
  | .ListAttestedNodeEvents => none
  | .ListBundles => none
  | .ListNodeSelectors => none
  | .ListRegistrationEntries => none
  | .ListRegistrationEntryEvents => none
  | .CountAttestedNodes => 0
  | .CountBundles => 0
  | .CountRegistrationEntries => 0
  | .PruneAttestedNodeEvents => ()
  | .PruneBundle => false
  | .PruneJoinTokens => ()
  | .PruneRegistrationEntries => ()
  | .PruneRegistrationEntryEvents => ()
  | .PruneAttestedExpiredNodes => ()
  | .SetBundle => none
  | .TaintX509CA => ()
  | .RevokeX509CA => ()
  | .TaintJWTKey => none
  | .RevokeJWTKey => none
  | .SetNodeSelectors => ()
  | .UpdateAttestedNode => none
  | .UpdateBundle => none
  | .UpdateRegistrationEntry => none
  | .UpdateFederationRelationship => none
  | .SetCAJournal => none
  | .FetchCAJournal => none
  | .ListCAJournalsForTesting => []
  | .PruneCAJournals => ()

/-- The `datastore.DataStore` interface: an implementation over the state `W`
answers every operation with its results and the state afterwards. -/
structure DataStore (W : Type) where
  call : (op : Op) → Context → Args op → W → Ret op × W

end datastore

namespace telemetry

open datastore

/-- A metrics sink, the `telemetry.Metrics` a wrapper is built with, known by
its identity. -/
structure Metrics where
  id : Nat
  deriving DecidableEq, Repr

/-- The call-counter starters that `wrapper.go` invokes, in the order of their
first use. -/
inductive Starter where
  | StartAppendBundleCall
  | StartCreateNodeCall
  | StartCreateAttestedNodeEventForTestingCall
  | StartCreateBundleCall
  | StartCreateJoinTokenCall
  | StartCreateRegistrationCall
  | StartCreateRegistrationEntryEventForTestingCall
  | StartCreateFederationRelationshipCall
  | StartListFederationRelationshipsCall
  | StartDeleteNodeCall
  | StartDeleteAttestedNodeEventForTestingCall
  | StartDeleteBundleCall
  | StartDeleteFederationRelationshipCall
  | StartDeleteJoinTokenCall
  | StartDeleteRegistrationCall
  | StartDeleteRegistrationEntryEventForTestingCall
  | StartFetchNodeCall
  | StartFetchAttestedNodeEventCall
  | StartFetchBundleCall
  | StartFetchJoinTokenCall
  | StartFetchRegistrationCall
  | StartFetchRegistrationEntryEventCall
  | StartFetchFederationRelationshipCall
  | StartGetNodeSelectorsCall
  | StartListNodeCall
  | StartListAttestedNodeEventsCall
  | StartListBundleCall
  | StartListNodeSelectorsCall
  | StartListRegistrationCall
  | StartListRegistrationEntryEventsCall
  | StartCountNodeCall
  | StartCountBundleCall
  | StartCountRegistrationCall
  | StartPruneAttestedNodeEventsCall
  | StartPruneBundleCall
  | StartPruneJoinTokenCall
  | StartPruneRegistrationCall
  | StartPruneRegistrationEntryEventsCall
  | StartPruneAttestedExpiredNodes
  | StartSetBundleCall
  | StartTaintX509CAByKeyCall
  | StartRevokeX509CACall
  | StartTaintJWTKeyCall
  | StartRevokeJWTKeyCall
  | StartSetNodeSelectorsCall
  | StartUpdateNodeCall
  | StartUpdateBundleCall
  | StartUpdateRegistrationCall
  | StartUpdateFederationRelationshipCall
  | StartSetCAJournal
  | StartFetchCAJournal
  | StartListCAJournalsForTesting
  | StartPruneCAJournalsCall
  deriving DecidableEq, Repr

/-- The starter named in the first statement `callCounter := StartXCall(w.m)`
of each wrapper method. -/
def starter : Op → Starter
  | .AppendBundle => .StartAppendBundleCall
  | .CreateAttestedNode => .StartCreateNodeCall
  | .CreateAttestedNodeEventForTesting => .StartCreateAttestedNodeEventForTestingCall
  | .CreateBundle => .StartCreateBundleCall
  | .CreateJoinToken => .StartCreateJoinTokenCall
  | .CreateRegistrationEntry => .StartCreateRegistrationCall
  | .CreateOrReturnRegistrationEntry => .StartCreateRegistrationCall
  | .CreateRegistrationEntryEventForTesting => .StartCreateRegistrationEntryEventForTestingCall
  | .CreateFederationRelationship => .StartCreateFederationRelationshipCall
  | .ListFederationRelationships => .StartListFederationRelationshipsCall
  | .DeleteAttestedNode => .StartDeleteNodeCall
  | .DeleteAttestedNodeEventForTesting => .StartDeleteAttestedNodeEventForTestingCall
  | .DeleteBundle => .StartDeleteBundleCall
  | .DeleteFederationRelationship => .StartDeleteFederationRelationshipCall
  | .DeleteJoinToken => .StartDeleteJoinTokenCall
  | .DeleteRegistrationEntry => .StartDeleteRegistrationCall
  | .DeleteRegistrationEntryEventForTesting => .StartDeleteRegistrationEntryEventForTestingCall
  | .FetchAttestedNode => .StartFetchNodeCall
  | .FetchAttestedNodeEvent => .StartFetchAttestedNodeEventCall
  | .FetchBundle => .StartFetchBundleCall
  | .FetchJoinToken => .StartFetchJoinTokenCall
  | .FetchRegistrationEntry => .StartFetchRegistrationCall
  | .FetchRegistrationEntries => .StartFetchRegistrationCall
  | .FetchRegistrationEntryEvent => .StartFetchRegistrationEntryEventCall
  | .FetchFederationRelationship => .StartFetchFederationRelationshipCall
  | .GetNodeSelectors => .StartGetNodeSelectorsCall
  | .ListAttestedNodes => .StartListNodeCall
  | .ListAttestedNodeEvents => .StartListAttestedNodeEventsCall
  | .ListBundles => .StartListBundleCall
  | .ListNodeSelectors => .StartListNodeSelectorsCall
  | .ListRegistrationEntries => .StartListRegistrationCall
  | .ListRegistrationEntryEvents => .StartListRegistrationEntryEventsCall
  | .CountAttestedNodes => .StartCountNodeCall
  | .CountBundles => .StartCountBundleCall
  | .CountRegistrationEntries => .StartCountRegistrationCall
  | .PruneAttestedNodeEvents => .StartPruneAttestedNodeEventsCall
  | .PruneBundle => .StartPruneBundleCall
  | .PruneJoinTokens => .StartPruneJoinTokenCall
  | .PruneRegistrationEntries => .StartPruneRegistrationCall
  | .PruneRegistrationEntryEvents => .StartPruneRegistrationEntryEventsCall
  | .PruneAttestedExpiredNodes => .StartPruneAttestedExpiredNodes
  | .SetBundle => .StartSetBundleCall
  | .TaintX509CA => .StartTaintX509CAByKeyCall
  | .RevokeX509CA => .StartRevokeX509CACall
  | .TaintJWTKey => .StartTaintJWTKeyCall
  | .RevokeJWTKey => .StartRevokeJWTKeyCall
  | .SetNodeSelectors => .StartSetNodeSelectorsCall
  | .UpdateAttestedNode => .StartUpdateNodeCall
  | .UpdateBundle => .StartUpdateBundleCall
  | .UpdateRegistrationEntry => .StartUpdateRegistrationCall
  | .UpdateFederationRelationship => .StartUpdateFederationRelationshipCall
  | .SetCAJournal => .StartSetCAJournal
  | .FetchCAJournal => .StartFetchCAJournal
  | .ListCAJournalsForTesting => .StartListCAJournalsForTesting
  | .PruneCAJournals => .StartPruneCAJournalsCall

end telemetry

namespace telemetry

open datastore

/-- Modelled from the spec: `telemetry.CallCounter` (declared outside src/), the
handle an operation-start call returns.  It belongs to the sink it was started
on, carries the key of the starter that made it, and `id` tells apart the
counters of different calls. -/
structure CallCounter where
  metrics : Metrics
  key : Starter
  id : Nat
  deriving DecidableEq, Repr

/-- What can be observed of an execution, in the order it happens: a call
counter is started, an operation of the underlying store is invoked with its
arguments, a call counter is completed with the error it read. -/
inductive Event where
  | start (c : CallCounter)
  | call (op : Op) (ctx : Context) (args : Args op)
  | done (c : CallCounter) (err : error)

/-- The state a call runs in: the state of the underlying store and the events
so far, oldest first. -/
structure World (σ : Type) where
  store : σ
  trace : List Event

/-- Modelled from the spec: the starters `StartXCall(m)` (declared outside
src/).  An operation-start call returns a fresh handle on the sink `m`; the
start is recorded.  A starter receives the sink and nothing else. -/
def Start {σ : Type} (key : Starter) (m : Metrics) (world : World σ) : CallCounter × World σ :=
  let c : CallCounter := { metrics := m, key := key, id := world.trace.length }
  (c, { world with trace := world.trace ++ [Event.start c] })

/-- Modelled from the spec: `CallCounter.Done(errp *error)` (declared outside
src/), the completion method of the handle: it reads the error behind the
pointer, here `err`, and records it; it does not assign through the pointer. -/
def CallCounter.Done {σ : Type} (c : CallCounter) (err : error) (world : World σ) : World σ :=
  { world with trace := world.trace ++ [Event.done c err] }

/-- The status label of a completed call. -/
inductive Status where
  | ok
  | failed (code : Code)
  deriving DecidableEq, Repr

/-- Modelled from the spec: the final error status a completion records, `ok`
for a nil error and the error's code otherwise. -/
def recordedStatus : error → Status
  | none => Status.ok
  | some e => Status.failed e.code

/-- The operations of a store with state `σ`, as functions of that state. -/
abbrev Backend (σ : Type) : Type :=
  (op : Op) → Context → Args op → σ → Ret op × σ

/-- A store as an implementation of the interface: each invocation is recorded
and then answered by the backend from the store's state. -/
def observed {σ : Type} (b : Backend σ) : datastore.DataStore (World σ) where
  call op ctx args world :=
    let r := b op ctx args world.store
    (r.1, { store := r.2, trace := world.trace ++ [Event.call op ctx args] })

/-- The struct `metricsWrapper` of `wrapper.go`. -/
structure metricsWrapper (σ : Type) where
  ds : datastore.DataStore (World σ)
  m : Metrics

/-- The variables of one activation of a wrapper method: the receiver `w`
(passed by value), the local `callCounter`, the unnamed results and the named
result `err`. -/
structure Frame (σ : Type) (op : Op) where
  w : metricsWrapper σ
  callCounter : Option CallCounter
  result : Res op
  err : error

/-- The body shared by the 55 methods of `metricsWrapper`, for the method `op`:
```
callCounter := StartXCall(w.m)
defer callCounter.Done(&err)
return w.ds.X(ctx, args...)
```
The `return` statement assigns the values of the delegated call to the results,
then the deferred call runs and reads `err`, then the method returns.  The
outcome is the final frame and the world. -/
def metricsWrapper.exec {σ : Type} (w : metricsWrapper σ) (op : Op) (ctx : Context)
    (args : Args op) (world : World σ) : Frame σ op × World σ :=
  let f0 : Frame σ op := { w := w, callCounter := none, result := zero op, err := none }
  let started := Start (starter op) f0.w.m world
  let f1 : Frame σ op := { f0 with callCounter := some started.1 }
  let deferred : CallCounter := started.1
  let r := f1.w.ds.call op ctx args started.2
  let f2 : Frame σ op := { f1 with result := r.1.1, err := r.1.2 }
  let world3 := deferred.Done f2.err r.2
  (f2, world3)

/-- A wrapper method as its caller sees it: the returned results and error, and
the world afterwards. -/
def metricsWrapper.call {σ : Type} (w : metricsWrapper σ) (op : Op) (ctx : Context)
    (args : Args op) (world : World σ) : Ret op × World σ :=
  let fin := w.exec op ctx args world
  ((fin.1.result, fin.1.err), fin.2)

/-- The function `WithMetrics` of `wrapper.go`:
`return metricsWrapper{ds: ds, m: metrics}`, as a `datastore.DataStore`. -/
def WithMetrics {σ : Type} (ds : datastore.DataStore (World σ)) (metrics : Metrics) :
    datastore.DataStore (World σ) where
  call := (metricsWrapper.mk ds metrics).call

end telemetry

namespace fakedatastore

open datastore

/-- The functions of `pkg/common/util` (outside src/) that the fake calls on a
successful result; `none` stands for a panic. -/
structure Util where
  SortSelectors : List (Option Selector) → Option (List (Option Selector))
  SortRegistrationEntries :
    List (Option RegistrationEntry) → Option (List (Option RegistrationEntry))

/-- The comparison handed to `sort.Slice` in `ListBundles`:
`resp.Bundles[i].TrustDomainId < resp.Bundles[j].TrustDomainId`. -/
def bundleLess (a b : Bundle) : Bool := decide (a.TrustDomainId < b.TrustDomainId)

/-- All elements of a slice of pointers, when none of them is nil. -/
def allNonNil {α : Type} : List (Option α) → Option (List α)
  | [] => some []
  | none :: _ => none
  | some a :: rest => (allNonNil rest).map (fun as => a :: as)

/-- The call `sort.Slice(resp.Bundles, less)` of `ListBundles`.  A slice of
fewer than two elements is left alone without a comparison; otherwise every
element is compared, which dereferences it, so a nil element is a panic
(`none`).  The order among bundles of equal `TrustDomainId`, which `sort.Slice`
leaves open, is the one they came in. -/
def sortBundles (bundles : List (Option Bundle)) : Option (List (Option Bundle)) :=
  if bundles.length < 2 then some bundles
  else
    match allNonNil bundles with
    | none => none
    | some bs => some ((bs.insertionSort (fun a b => bundleLess b a = false)).map some)

/-- The struct `DataStore` of `fakedatastore.go`: the underlying store and the
queue of injected errors. -/
structure DataStore (W : Type) where
  ds : datastore.DataStore W
  errs : List error

/-- The method `SetNextError`: `s.errs = []error{err}`. -/
def DataStore.SetNextError {W : Type} (s : DataStore W) (err : error) : DataStore W :=
  { s with errs := [err] }

/-- The method `AppendNextError`: `s.errs = append(s.errs, err)`. -/
def DataStore.AppendNextError {W : Type} (s : DataStore W) (err : error) : DataStore W :=
  { s with errs := s.errs ++ [err] }

/-- The method `getNextError`: nil when the queue is empty, otherwise the head
of the queue, which is removed. -/
def DataStore.getNextError {W : Type} (s : DataStore W) : error × DataStore W :=
  match s.errs with
  | [] => (none, s)
  | err :: rest => (err, { s with errs := rest })

/-- The 55 operations of the fake.  Each starts with
`if err := s.getNextError(); err != nil { return <zero values>, err }` and then
delegates to `s.ds`; `ListBundles`, `GetNodeSelectors` and
`ListRegistrationEntries` sort the result when the store returned no error.  The
outcome is the results, the fake afterwards and the state of the store
afterwards, or `none` for a panic. -/
def DataStore.call {W : Type} (u : Util) (s : DataStore W) (op : Op) (ctx : Context)
    (args : Args op) (world : W) : Option (Ret op × DataStore W × W) :=
  let next := s.getNextError
  match next.1 with
  | some err => some ((zero op, some err), next.2, world)
  | none =>
    match op, args with
    | .ListBundles, req =>
      let r := next.2.ds.call .ListBundles ctx req world
      match r.1.2, r.1.1 with
      | some err, resp => some ((resp, some err), next.2, r.2)
      | none, none => none
      | none, some resp =>
        match sortBundles resp.Bundles with
        | none => none
        | some sorted => some ((some { resp with Bundles := sorted }, none), next.2, r.2)
    | .GetNodeSelectors, a =>
      let r := next.2.ds.call .GetNodeSelectors ctx a world
      match r.1.2 with
      | some err => some ((r.1.1, some err), next.2, r.2)
      | none =>
        match u.SortSelectors r.1.1 with
        | none => none
        | some sorted => some ((sorted, none), next.2, r.2)
    | .ListRegistrationEntries, req =>
      let r := next.2.ds.call .ListRegistrationEntries ctx req world
      match r.1.2, r.1.1 with
      | some err, resp => some ((resp, some err), next.2, r.2)
      | none, none => none
      | none, some resp =>
        match u.SortRegistrationEntries resp.Entries with
        | none => none
        | some sorted => some ((some { resp with Entries := sorted }, none), next.2, r.2)
    | op, a =>
      let r := next.2.ds.call op ctx a world
      some (r.1, next.2, r.2)

end fakedatastore

namespace telemetry

open datastore

/-- The invocations of the underlying store among the events. -/
def storeCalls : List Event → List Event
  | [] => []
  | Event.call op ctx args :: rest => Event.call op ctx args :: storeCalls rest
  | _ :: rest => storeCalls rest

/-- What the sinks have recorded: for each completed call counter, in order, its
sink, its key and the status of the error it read. -/
def recorded : List Event → List (Metrics × Starter × Status)
  | [] => []
  | Event.done c err :: rest => (c.metrics, c.key, recordedStatus err) :: recorded rest
  | _ :: rest => recorded rest

end telemetry

namespace telemetry

open datastore

/-- The first method of `wrapper.go` that invokes a given starter. -/
def firstOp : Starter → Op
  | .StartAppendBundleCall => .AppendBundle
  | .StartCreateNodeCall => .CreateAttestedNode
  | .StartCreateAttestedNodeEventForTestingCall => .CreateAttestedNodeEventForTesting
  | .StartCreateBundleCall => .CreateBundle
  | .StartCreateJoinTokenCall => .CreateJoinToken
  | .StartCreateRegistrationCall => .CreateRegistrationEntry
  | .StartCreateRegistrationEntryEventForTestingCall => .CreateRegistrationEntryEventForTesting
  | .StartCreateFederationRelationshipCall => .CreateFederationRelationship
  | .StartListFederationRelationshipsCall => .ListFederationRelationships
  | .StartDeleteNodeCall => .DeleteAttestedNode
  | .StartDeleteAttestedNodeEventForTestingCall => .DeleteAttestedNodeEventForTesting
  | .StartDeleteBundleCall => .DeleteBundle
  | .StartDeleteFederationRelationshipCall => .DeleteFederationRelationship
  | .StartDeleteJoinTokenCall => .DeleteJoinToken
  | .StartDeleteRegistrationCall => .DeleteRegistrationEntry
  | .StartDeleteRegistrationEntryEventForTestingCall => .DeleteRegistrationEntryEventForTesting
  | .StartFetchNodeCall => .FetchAttestedNode
  | .StartFetchAttestedNodeEventCall => .FetchAttestedNodeEvent
  | .StartFetchBundleCall => .FetchBundle
  | .StartFetchJoinTokenCall => .FetchJoinToken
  | .StartFetchRegistrationCall => .FetchRegistrationEntry
  | .StartFetchRegistrationEntryEventCall => .FetchRegistrationEntryEvent
  | .StartFetchFederationRelationshipCall => .FetchFederationRelationship
  | .StartGetNodeSelectorsCall => .GetNodeSelectors
  | .StartListNodeCall => .ListAttestedNodes
  | .StartListAttestedNodeEventsCall => .ListAttestedNodeEvents
  | .StartListBundleCall => .ListBundles
  | .StartListNodeSelectorsCall => .ListNodeSelectors
  | .StartListRegistrationCall => .ListRegistrationEntries
  | .StartListRegistrationEntryEventsCall => .ListRegistrationEntryEvents
  | .StartCountNodeCall => .CountAttestedNodes
  | .StartCountBundleCall => .CountBundles
  | .StartCountRegistrationCall => .CountRegistrationEntries
  | .StartPruneAttestedNodeEventsCall => .PruneAttestedNodeEvents
  | .StartPruneBundleCall => .PruneBundle
  | .StartPruneJoinTokenCall => .PruneJoinTokens
  | .StartPruneRegistrationCall => .PruneRegistrationEntries
  | .StartPruneRegistrationEntryEventsCall => .PruneRegistrationEntryEvents
  | .StartPruneAttestedExpiredNodes => .PruneAttestedExpiredNodes
  | .StartSetBundleCall => .SetBundle
  | .StartTaintX509CAByKeyCall => .TaintX509CA
  | .StartRevokeX509CACall => .RevokeX509CA
  | .StartTaintJWTKeyCall => .TaintJWTKey
  | .StartRevokeJWTKeyCall => .RevokeJWTKey
  | .StartSetNodeSelectorsCall => .SetNodeSelectors
  | .StartUpdateNodeCall => .UpdateAttestedNode
  | .StartUpdateBundleCall => .UpdateBundle
  | .StartUpdateRegistrationCall => .UpdateRegistrationEntry
  | .StartUpdateFederationRelationshipCall => .UpdateFederationRelationship
  | .StartSetCAJournal => .SetCAJournal
  | .StartFetchCAJournal => .FetchCAJournal
  | .StartListCAJournalsForTesting => .ListCAJournalsForTesting
  | .StartPruneCAJournalsCall => .PruneCAJournals

/-- The first method of `wrapper.go` that invokes the same starter as `op`. -/
def firstWithStarter (op : Op) : Op :=
  if op = .CreateOrReturnRegistrationEntry then .CreateRegistrationEntry
  else if op = .FetchRegistrationEntries then .FetchRegistrationEntry
  else op

/-- The method names of `metricsWrapper`, in the order of `wrapper.go`. -/
def methods : List String := Op.all.map Op.name

/-- The taint and revoke operations on X.509 and JWT authorities. -/
def authorityOps : List Op := [.TaintX509CA, .RevokeX509CA, .TaintJWTKey, .RevokeJWTKey]

end telemetry

namespace fakedatastore

/-- The names of the datastore operations of the fake `DataStore`, in the order
of `fakedatastore.go` (`SetNextError`, `AppendNextError` and `getNextError`
manage the error queue and are not among them). -/
def methods : List String :=
  ["CreateBundle", "UpdateBundle", "SetBundle", "AppendBundle", "CountBundles", "DeleteBundle",
   "FetchBundle", "ListBundles", "PruneBundle", "CountAttestedNodes", "CreateAttestedNode",
   "FetchAttestedNode", "ListAttestedNodes", "UpdateAttestedNode", "DeleteAttestedNode",
   "PruneAttestedExpiredNodes", "ListAttestedNodeEvents", "PruneAttestedNodeEvents",
   "CreateAttestedNodeEventForTesting", "DeleteAttestedNodeEventForTesting",
   "FetchAttestedNodeEvent", "TaintX509CA", "RevokeX509CA", "TaintJWTKey", "RevokeJWTKey",
   "SetNodeSelectors", "ListNodeSelectors", "GetNodeSelectors", "CountRegistrationEntries",
   "CreateRegistrationEntry", "CreateOrReturnRegistrationEntry", "FetchRegistrationEntry",
   "FetchRegistrationEntries", "ListRegistrationEntries", "UpdateRegistrationEntry",
   "DeleteRegistrationEntry", "PruneRegistrationEntries", "ListRegistrationEntryEvents",
   "PruneRegistrationEntryEvents", "CreateRegistrationEntryEventForTesting",
   "DeleteRegistrationEntryEventForTesting", "FetchRegistrationEntryEvent", "CreateJoinToken",
   "FetchJoinToken", "DeleteJoinToken", "PruneJoinTokens", "CreateFederationRelationship",
   "DeleteFederationRelationship", "FetchFederationRelationship", "ListFederationRelationships",
   "UpdateFederationRelationship", "FetchCAJournal", "ListCAJournalsForTesting", "SetCAJournal",
   "PruneCAJournals"]

end fakedatastore

namespace datastore

/-- The entity kinds the storage contract names for the six basic verbs. -/
inductive Entity where
  | Bundle | AttestedNode | RegistrationEntry | FederationRelationship | JoinToken
  deriving DecidableEq, Repr

/-- The six basic verbs of the storage contract. -/
inductive Verb where
  | Create | Fetch | Update | Delete | List | Count
  deriving DecidableEq, Repr

/-- The name of an entity kind in a method that handles one entity. -/
def Entity.singular : Entity → String
  | .Bundle => "Bundle"
  | .AttestedNode => "AttestedNode"
  | .RegistrationEntry => "RegistrationEntry"
  | .FederationRelationship => "FederationRelationship"
  | .JoinToken => "JoinToken"

/-- The name of an entity kind in a method that handles many entities. -/
def Entity.plural : Entity → String
  | .Bundle => "Bundles"
  | .AttestedNode => "AttestedNodes"
  | .RegistrationEntry => "RegistrationEntries"
  | .FederationRelationship => "FederationRelationships"
  | .JoinToken => "JoinTokens"

/-- The method name of a verb on an entity kind, after the naming of the
interface: `CreateBundle`, `FetchBundle`, `UpdateBundle`, `DeleteBundle`,
`ListBundles`, `CountBundles`. -/
def methodName : Verb → Entity → String
  | .Create, e => "Create" ++ e.singular
  | .Fetch, e => "Fetch" ++ e.singular
  | .Update, e => "Update" ++ e.singular
  | .Delete, e => "Delete" ++ e.singular
  | .List, e => "List" ++ e.plural
  | .Count, e => "Count" ++ e.plural

/-- Whether a method set has the method of a verb on an entity kind. -/
def offers (methods : List String) (v : Verb) (e : Entity) : Bool :=
  methods.contains (methodName v e)

/-- Whether two registration entries have the same uniqueness key
`(ParentID, SPIFFEID, Selectors)`. -/
def sameKey (a b : RegistrationEntry) : Bool :=
  decide (a.ParentId = b.ParentId ∧ a.SpiffeId = b.SpiffeId ∧ a.Selectors = b.Selectors)

/-- The trust domain identifier among the arguments of the operations whose
signature has one (the parameter `trustDomain` or `trustDomainID`). -/
def trustDomainOf : (op : Op) → Args op → Option String
  | .FetchBundle, trustDomain => some trustDomain
  | .DeleteBundle, (trustDomain, _) => some trustDomain
  | .PruneBundle, (trustDomainID, _) => some trustDomainID
  | .TaintX509CA, (trustDomainID, _) => some trustDomainID
  | .RevokeX509CA, (trustDomainID, _) => some trustDomainID
  | .TaintJWTKey, (trustDomainID, _) => some trustDomainID
  | .RevokeJWTKey, (trustDomainID, _) => some trustDomainID
  | .FetchFederationRelationship, trustDomain => some trustDomain.name
  | .DeleteFederationRelationship, trustDomain => some trustDomain.name
  | _, _ => none

/-- Whether two results of `CreateOrReturnRegistrationEntry`, of a first and a
second call, carry entries with the same entry ID, the second reporting that the
entry existed before. -/
def returnsSameEntry (r1 r2 : Ret .CreateOrReturnRegistrationEntry) : Bool :=
  match r1.1.1, r2.1.1 with
  | some a, some b => decide (a.EntryId = b.EntryId) && r2.1.2
  | _, _ => false

end datastore

namespace samples

open datastore

/-- A small in-memory store for concrete instances: it keeps registration
entries, `CreateOrReturnRegistrationEntry` returns the stored entry with the same
key when there is one and stores a new entry otherwise, the taint and revoke
operations know no key and fail with an invalid-argument error, and every other
operation returns zero values and no error. -/
def memStore : telemetry.Backend (List RegistrationEntry) :=
  fun op _ args entries =>
    match op, args with
    | .CreateOrReturnRegistrationEntry, none =>
      (((none, false), some { code := Code.InvalidArgument, msg := "invalid request: missing registered entry" }), entries)
    | .CreateOrReturnRegistrationEntry, some entry =>
      match entries.find? (fun e => sameKey e entry) with
      | some existing => (((some existing, true), none), entries)
      | none =>
        let created := { entry with EntryId := "entry-" ++ toString entries.length }
        (((some created, false), none), entries ++ [created])
    | .TaintX509CA, _ =>
      (((), some { code := Code.InvalidArgument, msg := "no ca found with provided subject key ID" }), entries)
    | .RevokeX509CA, _ =>
      (((), some { code := Code.InvalidArgument, msg := "no root CA found with provided subject key ID" }), entries)
    | .TaintJWTKey, _ =>
      ((none, some { code := Code.InvalidArgument, msg := "no JWT Key found with provided key ID" }), entries)
    | .RevokeJWTKey, _ =>
      ((none, some { code := Code.InvalidArgument, msg := "no JWT Key found with provided key ID" }), entries)
    | op, _ => ((zero op, none), entries)

/-- A registration entry of the workload `spiffe://example.org/web`. -/
def webEntry : RegistrationEntry :=
  { EntryId := "", ParentId := "spiffe://example.org/agent", SpiffeId := "spiffe://example.org/web",
    Selectors := [{ Typ := "unix", Value := "uid:1000" }], X509SvidTtl := 3600, Admin := false,
    Downstream := false, DnsNames := [], RevisionNumber := 0, FederatesWith := [] }

/-- The world before anything has happened, over the empty `memStore`. -/
def emptyWorld : telemetry.World (List RegistrationEntry) := { store := [], trace := [] }

/-- A metrics sink. -/
def sink : telemetry.Metrics := { id := 1 }

/-- A context. -/
def background : Context := { id := 0 }

/-- A store of bundles for concrete instances: `ListBundles` returns the stored
bundles in the order they are stored in, every other operation returns zero
values and no error. -/
def bundleStore : telemetry.Backend (List Bundle) :=
  fun op _ args bundles =>
    match op, args with
    | .ListBundles, _ => ((some { Bundles := bundles.map some, Pagination := none }, none), bundles)
    | op, _ => ((zero op, none), bundles)

/-- A store of bundles whose `ListBundles` fails. -/
def brokenStore : telemetry.Backend (List Bundle) :=
  fun op _ args bundles =>
    match op, args with
    | .ListBundles, _ => ((none, some { code := Code.Internal, msg := "database is locked" }), bundles)
    | op, _ => ((zero op, none), bundles)

/-- The bundle of the trust domain `spiffe://example.org`. -/
def exampleBundle : Bundle :=
  { TrustDomainId := "spiffe://example.org", RootCas := ["root-1"], JwtSigningKeys := [] }

/-- The bundle of the trust domain `spiffe://acme.test`. -/
def acmeBundle : Bundle :=
  { TrustDomainId := "spiffe://acme.test", RootCas := ["root-2"], JwtSigningKeys := ["key-1"] }

/-- Sort functions that leave the slice as it is. -/
def noSort : fakedatastore.Util :=
  { SortSelectors := fun l => some l, SortRegistrationEntries := fun l => some l }

end samples


namespace fakedatastore

open datastore

/-- The order `ListBundles` leaves the bundles in: `a` may stand before `b` when
the comparison handed to `sort.Slice` does not put `b` before `a`. -/
def bundleOrder (a b : Bundle) : Prop := bundleLess b a = false

instance : DecidableRel bundleOrder := fun a b =>
  inferInstanceAs (Decidable (bundleLess b a = false))

/-- The statements of an operation of the fake that follow the error check: the
call of the same operation of `s.ds` with the same arguments and, in
`ListBundles`, `GetNodeSelectors` and `ListRegistrationEntries`, the sort of the
result when the store returned no error.  The outcome is the results and the
state of the store afterwards, or `none` for a panic. -/
def DataStore.delegate {W : Type} (u : Util) (ds : datastore.DataStore W) (op : Op)
    (ctx : Context) (args : Args op) (world : W) : Option (Ret op × W) :=
  match op, args with
  | .ListBundles, req =>
    let r := ds.call .ListBundles ctx req world
    match r.1.2, r.1.1 with
    | some err, resp => some ((resp, some err), r.2)
    | none, none => none
    | none, some resp =>
      match sortBundles resp.Bundles with
      | none => none
      | some sorted => some ((some { resp with Bundles := sorted }, none), r.2)
  | .GetNodeSelectors, a =>
    let r := ds.call .GetNodeSelectors ctx a world
    match r.1.2 with
    | some err => some ((r.1.1, some err), r.2)
    | none =>
      match u.SortSelectors r.1.1 with
      | none => none
      | some sorted => some ((sorted, none), r.2)
  | .ListRegistrationEntries, req =>
    let r := ds.call .ListRegistrationEntries ctx req world
    match r.1.2, r.1.1 with
    | some err, resp => some ((resp, some err), r.2)
    | none, none => none
    | none, some resp =>
      match u.SortRegistrationEntries resp.Entries with
      | none => none
      | some sorted => some ((some { resp with Entries := sorted }, none), r.2)
  | op, a => some (ds.call op ctx a world)

/-- One call of a datastore operation: the operation, the context and the
arguments. -/
structure Invocation where
  op : Op
  ctx : Context
  args : Args op

/-- What one call returned: the operation, its results and its error. -/
structure Outcome where
  op : Op
  ret : Ret op

/-- Calls made on the fake one after the other, each on the fake and the store
as the call before left them: what they returned, in order, and the fake and the
store at the end; `none` when a call panics. -/
def DataStore.run {W : Type} (u : Util) :
    DataStore W → W → List Invocation → Option (List Outcome × DataStore W × W)
  | s, world, [] => some ([], s, world)
  | s, world, c :: cs =>
    match DataStore.call u s c.op c.ctx c.args world with
    | none => none
    | some (r, s', world') =>
      match DataStore.run u s' world' cs with
      | none => none
      | some (rs, fin) => some ({ op := c.op, ret := r } :: rs, fin)

/-- Calls that all go to the store: each runs the statements after the error
check on the store as the call before left it. -/
def delegateAll {W : Type} (u : Util) (ds : datastore.DataStore W) :
    W → List Invocation → Option (List Outcome × W)
  | world, [] => some ([], world)
  | world, c :: cs =>
    match DataStore.delegate u ds c.op c.ctx c.args world with
    | none => none
    | some (r, world') =>
      match delegateAll u ds world' cs with
      | none => none
      | some (rs, fin) => some ({ op := c.op, ret := r } :: rs, fin)

/-- A first-in-first-out queue of injected errors, consumed one entry a call:
the call that meets a non-nil entry returns it with zero results and leaves the
store alone, the call that meets a nil entry goes to the store, and so does
every call once the queue is empty.  The outcome is what the calls returned, the
entries left in the queue and the store at the end. -/
def fifo {W : Type} (u : Util) (ds : datastore.DataStore W) :
    List error → W → List Invocation → Option (List Outcome × List error × W)
  | queue, world, [] => some ([], queue, world)
  | some e :: queue, world, c :: cs =>
    match fifo u ds queue world cs with
    | none => none
    | some (rs, fin) => some ({ op := c.op, ret := (zero c.op, some e) } :: rs, fin)
  | none :: queue, world, c :: cs =>
    match DataStore.delegate u ds c.op c.ctx c.args world with
    | none => none
    | some (r, world') =>
      match fifo u ds queue world' cs with
      | none => none
      | some (rs, fin) => some ({ op := c.op, ret := r } :: rs, fin)
  | [], world, c :: cs =>
    match DataStore.delegate u ds c.op c.ctx c.args world with
    | none => none
    | some (r, world') =>
      match fifo u ds [] world' cs with
      | none => none
      | some (rs, fin) => some ({ op := c.op, ret := r } :: rs, fin)

end fakedatastore

namespace fakedatastore

/-- The UTF-8 encoding of a code point, in arithmetic form: the bytes that stand
for the character in a Go string, whose `<` compares byte by byte. -/
def utf8 (v : Nat) : List Nat :=
  if v ≤ 0x7f then [v]
  else if v ≤ 0x7ff then [0xc0 + v / 64, 0x80 + v % 64]
  else if v ≤ 0xffff then [0xe0 + v / 4096, 0x80 + v / 64 % 64, 0x80 + v % 64]
  else [0xf0 + v / 262144, 0x80 + v / 4096 % 64, 0x80 + v / 64 % 64, 0x80 + v % 64]

/-- The UTF-8 bytes of a sequence of characters. -/
def charBytes : List Char → List Nat
  | [] => []
  | c :: rest => utf8 c.toNat ++ charBytes rest

/-- The bytes of a string as Go holds it: its UTF-8 encoding. -/
def stringBytes (s : String) : List Nat := s.toUTF8.data.toList.map UInt8.toNat

/-- Go's `<` on strings, on their bytes: the first differing byte decides, and a
proper prefix is smaller. -/
def bytewiseLess : List Nat → List Nat → Bool
  | _, [] => false
  | [], _ :: _ => true
  | a :: as, b :: bs => decide (a < b) || (decide (a = b) && bytewiseLess as bs)

end fakedatastore

namespace samples

open datastore

/-- A sort of a slice of pointers in the manner of `sort.Slice` with a
comparison that dereferences the elements: a slice of fewer than two elements is
left alone, a nil element among two or more is a panic (`none`), otherwise the
elements are put in the order `le`. -/
def sortNonNil {α : Type} (le : α → α → Bool) (l : List (Option α)) : Option (List (Option α)) :=
  if l.length < 2 then some l
  else
    match fakedatastore.allNonNil l with
    | none => none
    | some xs => some ((xs.insertionSort (fun a b => le a b = true)).map some)

/-- Selectors in the byte-wise order of their type, then of their value. -/
def selectorLE (a b : Selector) : Bool :=
  fakedatastore.bytewiseLess (fakedatastore.charBytes a.Typ.toList)
      (fakedatastore.charBytes b.Typ.toList)
    || (decide (a.Typ = b.Typ)
        && !fakedatastore.bytewiseLess (fakedatastore.charBytes b.Value.toList)
              (fakedatastore.charBytes a.Value.toList))

/-- Registration entries in the byte-wise order of their SPIFFE ID. -/
def entryLE (a b : RegistrationEntry) : Bool :=
  !fakedatastore.bytewiseLess (fakedatastore.charBytes b.SpiffeId.toList)
      (fakedatastore.charBytes a.SpiffeId.toList)

/-- Sort functions that sort, and panic on a nil element among two or more. -/
def sortingUtil : fakedatastore.Util :=
  { SortSelectors := sortNonNil selectorLE, SortRegistrationEntries := sortNonNil entryLE }

/-- A store of registration entries and of the selectors of one node for
concrete instances: `ListRegistrationEntries` and `GetNodeSelectors` return
what is stored, in the order it is stored in, every other operation returns zero
values and no error. -/
def listingStore : telemetry.Backend (List RegistrationEntry × List Selector) :=
  fun op _ args stored =>
    match op, args with
    | .ListRegistrationEntries, _ =>
      ((some { Entries := stored.1.map some, Pagination := none }, none), stored)
    | .GetNodeSelectors, _ => ((stored.2.map some, none), stored)
    | op, _ => ((zero op, none), stored)

/-- A registration entry of the workload `spiffe://example.org/db`. -/
def dbEntry : RegistrationEntry :=
  { EntryId := "", ParentId := "spiffe://example.org/agent", SpiffeId := "spiffe://example.org/db",
    Selectors := [{ Typ := "unix", Value := "uid:1001" }], X509SvidTtl := 3600, Admin := false,
    Downstream := false, DnsNames := [], RevisionNumber := 0, FederatesWith := [] }

/-- The selector `unix:uid:1000`. -/
def uidSelector : Selector := { Typ := "unix", Value := "uid:1000" }

/-- The selector `k8s:ns:default`. -/
def nsSelector : Selector := { Typ := "k8s", Value := "ns:default" }

/-- A world over the `listingStore` in which the entries and the selectors are
stored out of order. -/
def listingWorld : telemetry.World (List RegistrationEntry × List Selector) :=
  { store := ([webEntry, dbEntry], [uidSelector, nsSelector]), trace := [] }

end samples

/-! ## The metrics wrapper -/

namespace telemetry

open datastore

theorem storeCalls_append (xs ys : List Event) :
    storeCalls (xs ++ ys) = storeCalls xs ++ storeCalls ys := by
  induction xs with
  | nil => rfl
  | cons x xs ih => cases x <;> simp [storeCalls, ih]

theorem recorded_append (xs ys : List Event) :
    recorded (xs ++ ys) = recorded xs ++ recorded ys := by
  induction xs with
  | nil => rfl
  | cons x xs ih => cases x <;> simp [recorded, ih]

theorem mem_all (op : Op) : op ∈ Op.all := by
  cases op <;> simp [Op.all]

/-- The trace of a wrapper call over a store: the events before, then the start
of a counter, the invocation of the store, the completion of the counter. -/
theorem trace_call {σ : Type} (b : Backend σ) (m : Metrics) (op : Op) (ctx : Context)
    (args : Args op) (world : World σ) :
    ((WithMetrics (observed b) m).call op ctx args world).2.trace
      = world.trace ++
        [Event.start { metrics := m, key := starter op, id := world.trace.length },
         Event.call op ctx args,
         Event.done { metrics := m, key := starter op, id := world.trace.length }
           (b op ctx args world.store).1.2] := by
  simp [WithMetrics, metricsWrapper.call, metricsWrapper.exec, observed, Start, CallCounter.Done]

/-- The results of a wrapper call over a store are the results of the store. -/
theorem result_call {σ : Type} (b : Backend σ) (m : Metrics) (op : Op) (ctx : Context)
    (args : Args op) (world : World σ) :
    ((WithMetrics (observed b) m).call op ctx args world).1 = (b op ctx args world.store).1 :=
  rfl

/-- The store after a wrapper call is the store after the operation. -/
theorem store_call {σ : Type} (b : Backend σ) (m : Metrics) (op : Op) (ctx : Context)
    (args : Args op) (world : World σ) :
    ((WithMetrics (observed b) m).call op ctx args world).2.store
      = (b op ctx args world.store).2 :=
  rfl

/-- What a wrapper call over a store adds to the record of the sinks: one entry,
made of the sink, the key of the starter of the operation and the status of the
error of the store. -/
theorem recorded_call {σ : Type} (b : Backend σ) (m : Metrics) (op : Op) (ctx : Context)
    (args : Args op) (world : World σ) :
    recorded ((WithMetrics (observed b) m).call op ctx args world).2.trace
      = recorded world.trace
        ++ [(m, starter op, recordedStatus (b op ctx args world.store).1.2)] := by
  rw [trace_call, recorded_append]
  simp [recorded]

/-- C1: for each of the 55 operations, every store and every argument tuple,
the wrapper returns the results and the error of the delegated call
`w.ds.X(ctx, args)` and leaves the store as that call leaves it; over a store
`b` this is the result and the state of a direct call, and the store is invoked
once more than before, with the same operation, context and arguments. -/
theorem WithMetrics_observationally_equal {σ : Type} (b : Backend σ)
    (ds : datastore.DataStore (World σ)) (m : Metrics) (op : Op) (ctx : Context)
    (args : Args op) (world : World σ) :
    (Op.all.length = 55 ∧ Op.all.Nodup ∧ op ∈ Op.all)
    ∧ ((WithMetrics ds m).call op ctx args world).1
        = (ds.call op ctx args (Start (starter op) m world).2).1
    ∧ ((WithMetrics ds m).call op ctx args world).2.store
        = (ds.call op ctx args (Start (starter op) m world).2).2.store
    ∧ ((WithMetrics (observed b) m).call op ctx args world).1
        = ((observed b).call op ctx args world).1
    ∧ ((WithMetrics (observed b) m).call op ctx args world).2.store
        = ((observed b).call op ctx args world).2.store
    ∧ storeCalls ((WithMetrics (observed b) m).call op ctx args world).2.trace
        = storeCalls ((observed b).call op ctx args world).2.trace
    ∧ storeCalls ((WithMetrics (observed b) m).call op ctx args world).2.trace
        = storeCalls world.trace ++ [Event.call op ctx args] := by
  refine ⟨⟨rfl, by decide, mem_all op⟩, rfl, rfl, rfl, rfl, ?_, ?_⟩
  · rw [trace_call]
    simp [observed, storeCalls_append, storeCalls]
  · rw [trace_call]
    simp [storeCalls_append, storeCalls]

/-- C2: the error the wrapped store returns is the error the wrapper returns and
the error that `Done` reads through the pointer to the named result `err`: the
completion is the last event and carries that error, the recorded status is
`ok` exactly when the returned error is nil, and a non-nil error comes back as
it is. -/
theorem Done_reads_returned_error {σ : Type} (ds : datastore.DataStore (World σ))
    (m : Metrics) (op : Op) (ctx : Context) (args : Args op) (world : World σ) :
    ((WithMetrics ds m).call op ctx args world).1.2
        = (ds.call op ctx args (Start (starter op) m world).2).1.2
    ∧ ((metricsWrapper.mk ds m).exec op ctx args world).1.err
        = (ds.call op ctx args (Start (starter op) m world).2).1.2
    ∧ ((WithMetrics ds m).call op ctx args world).2.trace
        = (ds.call op ctx args (Start (starter op) m world).2).2.trace
          ++ [Event.done (Start (starter op) m world).1
                (ds.call op ctx args (Start (starter op) m world).2).1.2]
    ∧ recorded ((WithMetrics ds m).call op ctx args world).2.trace
        = recorded (ds.call op ctx args (Start (starter op) m world).2).2.trace
          ++ [(m, starter op,
               recordedStatus ((WithMetrics ds m).call op ctx args world).1.2)]
    ∧ (recordedStatus (ds.call op ctx args (Start (starter op) m world).2).1.2 = Status.ok
        ↔ ((WithMetrics ds m).call op ctx args world).1.2 = none)
    ∧ (∀ e : Error, (ds.call op ctx args (Start (starter op) m world).2).1.2 = some e ↔
        ((WithMetrics ds m).call op ctx args world).1.2 = some e) := by
  refine ⟨rfl, rfl, rfl, ?_, ?_, fun e => Iff.rfl⟩
  · show recorded ((ds.call op ctx args (Start (starter op) m world).2).2.trace ++ _) = _
    rw [recorded_append]
    rfl
  · show _ ↔ (ds.call op ctx args (Start (starter op) m world).2).1.2 = none
    cases (ds.call op ctx args (Start (starter op) m world).2).1.2 <;> simp [recordedStatus]

/-- C3: whatever the delegated call returns, a wrapper call over a store adds
exactly three events, in this order: the start of a call counter on the sink of
the wrapper, one invocation of the store, the completion of that same counter;
so the start precedes the invocation and the completion happens once. -/
theorem wrapper_call_events {σ : Type} (b : Backend σ) (m : Metrics) (op : Op)
    (ctx : Context) (args : Args op) (world : World σ) :
    ((WithMetrics (observed b) m).call op ctx args world).2.trace
      = world.trace ++
        [Event.start { metrics := m, key := starter op, id := world.trace.length },
         Event.call op ctx args,
         Event.done { metrics := m, key := starter op, id := world.trace.length }
           (b op ctx args world.store).1.2] :=
  trace_call b m op ctx args world

end telemetry

namespace telemetry

open datastore

theorem firstOp_starter (op : Op) : firstOp (starter op) = firstWithStarter op := by
  cases op <;> rfl

/-- C4, as stated, fails: `CreateRegistrationEntry` and
`CreateOrReturnRegistrationEntry` are distinct operations that invoke the same
starter, and so are `FetchRegistrationEntry` and `FetchRegistrationEntries`, so
the map from operations to starters is not injective. -/
theorem starter_not_injective :
    Op.CreateRegistrationEntry ≠ Op.CreateOrReturnRegistrationEntry
    ∧ starter Op.CreateRegistrationEntry = starter Op.CreateOrReturnRegistrationEntry
    ∧ Op.FetchRegistrationEntry ≠ Op.FetchRegistrationEntries
    ∧ starter Op.FetchRegistrationEntry = starter Op.FetchRegistrationEntries
    ∧ ¬ Function.Injective starter := by
  refine ⟨by decide, rfl, by decide, rfl, ?_⟩
  intro h
  have h2 : Op.CreateRegistrationEntry = Op.CreateOrReturnRegistrationEntry := h rfl
  exact absurd h2 (by decide)

/-- C4, amended: every wrapper call over a store is recorded under the key of
the starter its method invokes, and two operations invoke the same starter
exactly when they are the same operation or one of the two pairs
`CreateRegistrationEntry`/`CreateOrReturnRegistrationEntry` and
`FetchRegistrationEntry`/`FetchRegistrationEntries`. -/
theorem starter_shared_by_two_pairs_only {σ : Type} (b : Backend σ) (m : Metrics)
    (ctx : Context) (world : World σ) (op₁ op₂ : Op) (args : Args op₁) :
    recorded ((WithMetrics (observed b) m).call op₁ ctx args world).2.trace
      = recorded world.trace
        ++ [(m, starter op₁, recordedStatus (b op₁ ctx args world.store).1.2)]
    ∧ (starter op₁ = starter op₂ ↔
        (op₁ = op₂
          ∨ (op₁ = .CreateRegistrationEntry ∧ op₂ = .CreateOrReturnRegistrationEntry)
          ∨ (op₁ = .CreateOrReturnRegistrationEntry ∧ op₂ = .CreateRegistrationEntry)
          ∨ (op₁ = .FetchRegistrationEntry ∧ op₂ = .FetchRegistrationEntries)
          ∨ (op₁ = .FetchRegistrationEntries ∧ op₂ = .FetchRegistrationEntry))) := by
  refine ⟨recorded_call b m op₁ ctx args world, ?_, ?_⟩
  · intro h
    have h2 : firstWithStarter op₁ = firstWithStarter op₂ := by
      rw [← firstOp_starter, ← firstOp_starter, h]
    unfold firstWithStarter at h2
    split_ifs at h2 <;> simp_all
  · rintro (h | ⟨h1, h2⟩ | ⟨h1, h2⟩ | ⟨h1, h2⟩ | ⟨h1, h2⟩) <;> subst_vars <;> rfl

end telemetry

/-! ## The operation set -/

namespace datastore

set_option maxRecDepth 100000 in
theorem fake_methods_subset : ∀ name ∈ fakedatastore.methods, name ∈ telemetry.methods := by
  decide

set_option maxRecDepth 100000 in
theorem wrapper_methods_subset : ∀ name ∈ telemetry.methods, name ∈ fakedatastore.methods := by
  decide

/-- C9, as stated, fails: neither the wrapper nor the fake has a method that
counts federation relationships, or one that updates, lists or counts join
tokens. -/
theorem verbs_missing :
    offers telemetry.methods Verb.Count Entity.FederationRelationship = false
    ∧ offers telemetry.methods Verb.Update Entity.JoinToken = false
    ∧ offers telemetry.methods Verb.List Entity.JoinToken = false
    ∧ offers telemetry.methods Verb.Count Entity.JoinToken = false
    ∧ offers fakedatastore.methods Verb.Count Entity.FederationRelationship = false
    ∧ offers fakedatastore.methods Verb.Update Entity.JoinToken = false
    ∧ offers fakedatastore.methods Verb.List Entity.JoinToken = false
    ∧ offers fakedatastore.methods Verb.Count Entity.JoinToken = false := by
  decide

/-- C9, amended: the wrapper and the fake have the same method names; they
offer all six verbs for Bundle, AttestedNode and RegistrationEntry, all but
Count for FederationRelationship, and Create, Fetch and Delete only for
JoinToken. -/
theorem verbs_offered (v : Verb) (e : Entity) :
    (∀ name : String, name ∈ fakedatastore.methods ↔ name ∈ telemetry.methods)
    ∧ offers fakedatastore.methods v e = offers telemetry.methods v e
    ∧ (offers telemetry.methods v e = true ↔
        (e = Entity.Bundle ∨ e = Entity.AttestedNode ∨ e = Entity.RegistrationEntry
          ∨ (e = Entity.FederationRelationship ∧ v ≠ Verb.Count)
          ∨ (e = Entity.JoinToken ∧ (v = Verb.Create ∨ v = Verb.Fetch ∨ v = Verb.Delete)))) := by
  refine ⟨fun name => ⟨fake_methods_subset name, wrapper_methods_subset name⟩, ?_, ?_⟩
  · cases v <;> cases e <;> decide
  · cases v <;> cases e <;> decide

end datastore

/-! ## The agent configuration -/

namespace agent

/-- C10: the three rebootstrap mode constants are the strings `never`, `auto`
and `always`; they are pairwise distinct, so a configured mode matches at most
one of them, and exactly one when it is one of them. -/
theorem rebootstrap_modes (c : Config) :
    RebootstrapNever = "never" ∧ RebootstrapAuto = "auto" ∧ RebootstrapAlways = "always"
    ∧ RebootstrapNever ≠ RebootstrapAuto ∧ RebootstrapNever ≠ RebootstrapAlways
    ∧ RebootstrapAuto ≠ RebootstrapAlways
    ∧ [RebootstrapNever, RebootstrapAuto, RebootstrapAlways].count c.RebootstrapMode
        = if c.RebootstrapMode ∈ [RebootstrapNever, RebootstrapAuto, RebootstrapAlways]
          then 1 else 0 := by
  have hnodup : [RebootstrapNever, RebootstrapAuto, RebootstrapAlways].Nodup := by decide
  refine ⟨rfl, rfl, rfl, by decide, by decide, by decide, ?_⟩
  split_ifs with h
  · exact List.count_eq_one_of_mem hnodup h
  · exact List.count_eq_zero_of_not_mem h

end agent

/-! ## Idempotence, authority errors, locality and labels -/

namespace telemetry

open datastore fakedatastore

/-- The fake with an empty error queue hands an operation that it does not sort
to its store and stays as it is. -/
theorem fake_createOrReturn_empty {W : Type} (u : Util) (ds : datastore.DataStore W)
    (ctx : Context) (entry : Option RegistrationEntry) (world : W) :
    fakedatastore.DataStore.call u { ds := ds, errs := [] } .CreateOrReturnRegistrationEntry ctx entry world
      = some ((ds.call .CreateOrReturnRegistrationEntry ctx entry world).1,
              { ds := ds, errs := [] },
              (ds.call .CreateOrReturnRegistrationEntry ctx entry world).2) := by
  simp [fakedatastore.DataStore.call, fakedatastore.DataStore.getNextError]

/-- C5: when `CreateOrReturnRegistrationEntry` of a store, called twice with
entries of the same key, returns the same entry ID both times and reports on
the second call that the entry existed, then so does the store returned by
`WithMetrics`, and so does the fake with an empty error queue, whose two calls
return the entry, the flag and the error of the store unchanged and leave the
queue empty. -/
theorem CreateOrReturn_idempotence_preserved {σ : Type} (b : Backend σ) (m : Metrics)
    (u : Util) (ctx₁ ctx₂ : Context) (e₁ e₂ : RegistrationEntry) (world : World σ)
    (h : sameKey e₁ e₂ = true
      ∧ returnsSameEntry
          (b .CreateOrReturnRegistrationEntry ctx₁ (some e₁) world.store).1
          (b .CreateOrReturnRegistrationEntry ctx₂ (some e₂)
            (b .CreateOrReturnRegistrationEntry ctx₁ (some e₁) world.store).2).1 = true) :
    returnsSameEntry
        ((WithMetrics (observed b) m).call .CreateOrReturnRegistrationEntry ctx₁ (some e₁)
          world).1
        ((WithMetrics (observed b) m).call .CreateOrReturnRegistrationEntry ctx₂ (some e₂)
          ((WithMetrics (observed b) m).call .CreateOrReturnRegistrationEntry ctx₁ (some e₁)
            world).2).1 = true
    ∧ ∃ r₁ r₂ : Ret .CreateOrReturnRegistrationEntry, ∃ w₁ w₂ : World σ,
        fakedatastore.DataStore.call u { ds := observed b, errs := [] } .CreateOrReturnRegistrationEntry
            ctx₁ (some e₁) world = some (r₁, { ds := observed b, errs := [] }, w₁)
        ∧ fakedatastore.DataStore.call u { ds := observed b, errs := [] } .CreateOrReturnRegistrationEntry
            ctx₂ (some e₂) w₁ = some (r₂, { ds := observed b, errs := [] }, w₂)
        ∧ r₁ = (b .CreateOrReturnRegistrationEntry ctx₁ (some e₁) world.store).1
        ∧ r₂ = (b .CreateOrReturnRegistrationEntry ctx₂ (some e₂)
                (b .CreateOrReturnRegistrationEntry ctx₁ (some e₁) world.store).2).1
        ∧ returnsSameEntry r₁ r₂ = true := by
  refine ⟨h.2, _, _, _, _, fake_createOrReturn_empty u _ ctx₁ _ world,
    fake_createOrReturn_empty u _ ctx₂ _ _, rfl, rfl, h.2⟩

/-- C5 at a concrete input: the in-memory store creates the entry on the first
call and returns it on the second. -/
theorem CreateOrReturn_idempotence_preserved_witness :
    (sameKey samples.webEntry { samples.webEntry with X509SvidTtl := 60 } = true
      ∧ returnsSameEntry
          (samples.memStore .CreateOrReturnRegistrationEntry samples.background
            (some samples.webEntry) samples.emptyWorld.store).1
          (samples.memStore .CreateOrReturnRegistrationEntry samples.background
            (some { samples.webEntry with X509SvidTtl := 60 })
            (samples.memStore .CreateOrReturnRegistrationEntry samples.background
              (some samples.webEntry) samples.emptyWorld.store).2).1 = true)
    ∧ returnsSameEntry
        ((WithMetrics (observed samples.memStore) samples.sink).call
          .CreateOrReturnRegistrationEntry samples.background (some samples.webEntry)
          samples.emptyWorld).1
        ((WithMetrics (observed samples.memStore) samples.sink).call
          .CreateOrReturnRegistrationEntry samples.background
          (some { samples.webEntry with X509SvidTtl := 60 })
          ((WithMetrics (observed samples.memStore) samples.sink).call
            .CreateOrReturnRegistrationEntry samples.background (some samples.webEntry)
            samples.emptyWorld).2).1 = true :=
  ⟨⟨by decide, by decide⟩,
   (CreateOrReturn_idempotence_preserved samples.memStore samples.sink samples.noSort
      samples.background samples.background samples.webEntry
      { samples.webEntry with X509SvidTtl := 60 } samples.emptyWorld
      ⟨by decide, by decide⟩).1⟩

end telemetry

namespace telemetry

open datastore fakedatastore

/-- A call of the fake on one of the authority operations, over a store: either
the head of the queue is a non-nil error and the store is not invoked, or the
store is invoked once and its results are returned. -/
theorem fake_authority_call {σ : Type} (b : Backend σ) (u : Util) (errs : List error)
    (op : Op) (ctx : Context) (args : Args op) (world : World σ)
    (hop : op ∈ authorityOps) :
    (∃ e rest, errs = some e :: rest
      ∧ fakedatastore.DataStore.call u { ds := observed b, errs := errs } op ctx args world
          = some ((zero op, some e), { ds := observed b, errs := rest }, world))
    ∨ (fakedatastore.DataStore.call u { ds := observed b, errs := errs } op ctx args world
          = some ((b op ctx args world.store).1, { ds := observed b, errs := errs.tail },
              { store := (b op ctx args world.store).2,
                trace := world.trace ++ [Event.call op ctx args] })) := by
  simp only [authorityOps, List.mem_cons, List.mem_singleton, List.not_mem_nil, or_false] at hop
  rcases hop with h | h | h | h <;> subst h <;>
    rcases errs with _ | ⟨_ | e, rest⟩ <;>
    simp [fakedatastore.DataStore.call, fakedatastore.DataStore.getNextError, observed]

/-- C6: when the store fails on `TaintX509CA`, `RevokeX509CA`, `TaintJWTKey` or
`RevokeJWTKey`, the wrapper returns that same error, having invoked the
operation of the store exactly once and left the store as that one call left
it; the fake, whatever its error queue, returns and invokes its store at most
once. -/
theorem authority_error_returned_without_retry {σ : Type} (b : Backend σ) (m : Metrics)
    (u : Util) (errs : List error) (op : Op) (ctx : Context) (args : Args op)
    (world : World σ) (e : Error)
    (hop : op ∈ authorityOps) (hfail : (b op ctx args world.store).1.2 = some e) :
    ((WithMetrics (observed b) m).call op ctx args world).1.2 = some e
    ∧ storeCalls ((WithMetrics (observed b) m).call op ctx args world).2.trace
        = storeCalls world.trace ++ [Event.call op ctx args]
    ∧ ((WithMetrics (observed b) m).call op ctx args world).2.store
        = (b op ctx args world.store).2
    ∧ ∃ r : Ret op, ∃ s : fakedatastore.DataStore (World σ), ∃ w : World σ,
        fakedatastore.DataStore.call u { ds := observed b, errs := errs } op ctx args world
          = some (r, s, w)
        ∧ (storeCalls w.trace = storeCalls world.trace
            ∨ (storeCalls w.trace = storeCalls world.trace ++ [Event.call op ctx args]
                ∧ r.2 = some e)) := by
  refine ⟨hfail, ?_, rfl, ?_⟩
  · rw [trace_call]
    simp [storeCalls_append, storeCalls]
  · rcases fake_authority_call b u errs op ctx args world hop with ⟨e', rest, _, h⟩ | h
    · exact ⟨_, _, _, h, Or.inl rfl⟩
    · refine ⟨_, _, _, h, Or.inr ⟨?_, hfail⟩⟩
      simp [storeCalls_append, storeCalls]

/-- C6 at a concrete input: the in-memory store knows no authority, so tainting
the X.509 authority with an unknown key fails with an invalid-argument error,
which the wrapper returns. -/
theorem authority_error_returned_without_retry_witness :
    Op.TaintX509CA ∈ authorityOps
    ∧ (samples.memStore .TaintX509CA samples.background ("example.org", "unknown-key")
        samples.emptyWorld.store).1.2
        = some { code := Code.InvalidArgument, msg := "no ca found with provided subject key ID" }
    ∧ ((WithMetrics (observed samples.memStore) samples.sink).call .TaintX509CA
        samples.background ("example.org", "unknown-key") samples.emptyWorld).1.2
        = some { code := Code.InvalidArgument, msg := "no ca found with provided subject key ID" } :=
  ⟨by decide, rfl,
   (authority_error_returned_without_retry samples.memStore samples.sink samples.noSort []
      .TaintX509CA samples.background ("example.org", "unknown-key") samples.emptyWorld
      { code := Code.InvalidArgument, msg := "no ca found with provided subject key ID" }
      (by decide) rfl).1⟩

/-- C7: the receiver of a wrapper method is the same value at the end of the
call as at the start; the counter completed by `Done` is the one `Start` made
in that call; the counter of a call that follows is another one; and the
results and the store after a call depend on the store only, not on what was
recorded before. -/
theorem instrumentation_is_call_local {σ : Type} (b : Backend σ)
    (ds : datastore.DataStore (World σ)) (m : Metrics) (op₁ op₂ : Op) (ctx₁ ctx₂ : Context)
    (args₁ : Args op₁) (args₂ : Args op₂) (world : World σ) (s : σ) (t₁ t₂ : List Event) :
    ((metricsWrapper.mk ds m).exec op₁ ctx₁ args₁ world).1.w = metricsWrapper.mk ds m
    ∧ ((metricsWrapper.mk ds m).exec op₁ ctx₁ args₁ world).1.callCounter
        = some (Start (starter op₁) m world).1
    ∧ (Start (starter op₁) m world).2.trace
        = world.trace ++ [Event.start (Start (starter op₁) m world).1]
    ∧ ((metricsWrapper.mk ds m).exec op₁ ctx₁ args₁ world).2.trace
        = (ds.call op₁ ctx₁ args₁ (Start (starter op₁) m world).2).2.trace
          ++ [Event.done (Start (starter op₁) m world).1
                (ds.call op₁ ctx₁ args₁ (Start (starter op₁) m world).2).1.2]
    ∧ (Start (starter op₂) m
          ((WithMetrics (observed b) m).call op₁ ctx₁ args₁ world).2).1.id
        = (Start (starter op₁) m world).1.id + 3
    ∧ ((WithMetrics (observed b) m).call op₂ ctx₂ args₂
          ((WithMetrics (observed b) m).call op₁ ctx₁ args₁ world).2).2.trace
        = world.trace ++
          [Event.start { metrics := m, key := starter op₁, id := world.trace.length },
           Event.call op₁ ctx₁ args₁,
           Event.done { metrics := m, key := starter op₁, id := world.trace.length }
             (b op₁ ctx₁ args₁ world.store).1.2,
           Event.start { metrics := m, key := starter op₂, id := world.trace.length + 3 },
           Event.call op₂ ctx₂ args₂,
           Event.done { metrics := m, key := starter op₂, id := world.trace.length + 3 }
             (b op₂ ctx₂ args₂ (b op₁ ctx₁ args₁ world.store).2).1.2]
    ∧ ((WithMetrics (observed b) m).call op₁ ctx₁ args₁ { store := s, trace := t₁ }).1
        = ((WithMetrics (observed b) m).call op₁ ctx₁ args₁ { store := s, trace := t₂ }).1
    ∧ ((WithMetrics (observed b) m).call op₁ ctx₁ args₁ { store := s, trace := t₁ }).2.store
        = ((WithMetrics (observed b) m).call op₁ ctx₁ args₁ { store := s, trace := t₂ }).2.store := by
  refine ⟨rfl, rfl, rfl, rfl, ?_, ?_, rfl, rfl⟩
  · show ((WithMetrics (observed b) m).call op₁ ctx₁ args₁ world).2.trace.length
      = world.trace.length + 3
    rw [trace_call]
    simp
  · rw [trace_call, trace_call, store_call]
    simp

/-- C8, as stated, fails: two `FetchBundle` calls for different trust domains
with the same outcome leave the same record, so the trust domain is not among
the labels. -/
theorem trust_domain_not_recorded :
    trustDomainOf .FetchBundle "a.example" ≠ trustDomainOf .FetchBundle "b.example"
    ∧ ((WithMetrics (observed samples.memStore) samples.sink).call .FetchBundle
        samples.background "a.example" samples.emptyWorld).1
      = ((WithMetrics (observed samples.memStore) samples.sink).call .FetchBundle
        samples.background "b.example" samples.emptyWorld).1
    ∧ recorded ((WithMetrics (observed samples.memStore) samples.sink).call .FetchBundle
        samples.background "a.example" samples.emptyWorld).2.trace
      = recorded ((WithMetrics (observed samples.memStore) samples.sink).call .FetchBundle
        samples.background "b.example" samples.emptyWorld).2.trace := by
  refine ⟨by decide, rfl, rfl⟩

/-- C8, amended: for the operations that take a trust domain identifier, the
metric recorded for a call carries the sink, the key of the starter of the
operation and the status of the error, and nothing of the arguments: two calls
of the same operation with different trust domains and the same error are
recorded with the same labels. -/
theorem labels_without_trust_domain {σ : Type} (b : Backend σ) (m : Metrics) (op : Op)
    (ctx₁ ctx₂ : Context) (args₁ args₂ : Args op) (world₁ world₂ : World σ)
    (hdiff : trustDomainOf op args₁ ≠ trustDomainOf op args₂)
    (hsame : (b op ctx₁ args₁ world₁.store).1.2 = (b op ctx₂ args₂ world₂.store).1.2) :
    (trustDomainOf op args₁).isSome = true
    ∧ recorded ((WithMetrics (observed b) m).call op ctx₁ args₁ world₁).2.trace
        = recorded world₁.trace
          ++ [(m, starter op, recordedStatus (b op ctx₁ args₁ world₁.store).1.2)]
    ∧ recorded ((WithMetrics (observed b) m).call op ctx₂ args₂ world₂).2.trace
        = recorded world₂.trace
          ++ [(m, starter op, recordedStatus (b op ctx₁ args₁ world₁.store).1.2)] := by
  refine ⟨?_, recorded_call b m op ctx₁ args₁ world₁, ?_⟩
  · cases op <;> first | rfl | exact absurd rfl hdiff
  · rw [hsame]
    exact recorded_call b m op ctx₂ args₂ world₂

/-- C8 amended, at a concrete input: tainting an unknown X.509 authority in two
different trust domains fails the same way and is recorded the same way. -/
theorem labels_without_trust_domain_witness :
    trustDomainOf .TaintX509CA ("a.example", "key") ≠ trustDomainOf .TaintX509CA ("b.example", "key")
    ∧ recorded ((WithMetrics (observed samples.memStore) samples.sink).call .TaintX509CA
        samples.background ("b.example", "key") samples.emptyWorld).2.trace
        = [(samples.sink, Starter.StartTaintX509CAByKeyCall, Status.failed Code.InvalidArgument)] :=
  ⟨by decide,
   (labels_without_trust_domain samples.memStore samples.sink .TaintX509CA samples.background
      samples.background ("a.example", "key") ("b.example", "key") samples.emptyWorld
      samples.emptyWorld (by decide) rfl).2.2⟩

end telemetry

/-! ## Nested wrappers -/

namespace telemetry

open datastore

/-- The trace of a call on a wrapper around a wrapper around a store: the outer
counter is started, then the inner one, the store is invoked, the inner counter
is completed, then the outer one, both with the error of the store. -/
theorem trace_nested {σ : Type} (b : Backend σ) (m₁ m₂ : Metrics) (op : Op) (ctx : Context)
    (args : Args op) (world : World σ) :
    ((WithMetrics (WithMetrics (observed b) m₁) m₂).call op ctx args world).2.trace
      = world.trace ++
        [Event.start { metrics := m₂, key := starter op, id := world.trace.length },
         Event.start { metrics := m₁, key := starter op, id := world.trace.length + 1 },
         Event.call op ctx args,
         Event.done { metrics := m₁, key := starter op, id := world.trace.length + 1 }
           (b op ctx args world.store).1.2,
         Event.done { metrics := m₂, key := starter op, id := world.trace.length }
           (b op ctx args world.store).1.2] := by
  simp [WithMetrics, metricsWrapper.call, metricsWrapper.exec, observed, Start, CallCounter.Done]

/-- C11: for every store and sinks `m₁`, `m₂`, every operation of
`WithMetrics(WithMetrics(ds, m₁), m₂)` returns the results and the error of the
same operation of the store and leaves the store in the same state, invokes the
store exactly once, and adds these events in this order: start on `m₂`, start on
`m₁`, the invocation, completion of the `m₁` counter, completion of the `m₂`
counter, both completions with the error of the store; so the interval of the
outer counter encloses that of the inner one. -/
theorem nested_wrappers_compose {σ : Type} (b : Backend σ) (m₁ m₂ : Metrics) (op : Op)
    (ctx : Context) (args : Args op) (world : World σ) :
    ((WithMetrics (WithMetrics (observed b) m₁) m₂).call op ctx args world).1
        = (b op ctx args world.store).1
    ∧ ((WithMetrics (WithMetrics (observed b) m₁) m₂).call op ctx args world).2.store
        = (b op ctx args world.store).2
    ∧ storeCalls ((WithMetrics (WithMetrics (observed b) m₁) m₂).call op ctx args world).2.trace
        = storeCalls world.trace ++ [Event.call op ctx args]
    ∧ ((WithMetrics (WithMetrics (observed b) m₁) m₂).call op ctx args world).2.trace
        = world.trace ++
          [Event.start { metrics := m₂, key := starter op, id := world.trace.length },
           Event.start { metrics := m₁, key := starter op, id := world.trace.length + 1 },
           Event.call op ctx args,
           Event.done { metrics := m₁, key := starter op, id := world.trace.length + 1 }
             (b op ctx args world.store).1.2,
           Event.done { metrics := m₂, key := starter op, id := world.trace.length }
             (b op ctx args world.store).1.2]
    ∧ recorded ((WithMetrics (WithMetrics (observed b) m₁) m₂).call op ctx args world).2.trace
        = recorded world.trace
          ++ [(m₁, starter op, recordedStatus (b op ctx args world.store).1.2),
              (m₂, starter op, recordedStatus (b op ctx args world.store).1.2)] := by
  refine ⟨rfl, rfl, ?_, trace_nested b m₁ m₂ op ctx args world, ?_⟩
  · rw [trace_nested]
    simp [storeCalls_append, storeCalls]
  · rw [trace_nested, recorded_append]
    simp [recorded]

end telemetry

/-! ## The fake datastore -/

namespace fakedatastore

open datastore

/-- An operation of the fake is the error check followed by the statements
after it: a non-nil head of the queue is returned with zero results, otherwise
the head, if there is one, is dropped and the operation goes on. -/
theorem call_eq {W : Type} (u : Util) (ds : datastore.DataStore W) (errs : List error)
    (op : Op) (ctx : Context) (args : Args op) (world : W) :
    fakedatastore.DataStore.call u { ds := ds, errs := errs } op ctx args world
      = match errs.head? with
        | some (some e) => some ((zero op, some e), { ds := ds, errs := errs.tail }, world)
        | _ => (DataStore.delegate u ds op ctx args world).map
                 (fun x => (x.1, { ds := ds, errs := errs.tail }, x.2)) := by
  rcases errs with _ | ⟨_ | e, rest⟩
  · cases op <;>
      simp [fakedatastore.DataStore.call, DataStore.getNextError, DataStore.delegate]
    · generalize ds.call Op.GetNodeSelectors ctx args world = r
      rcases r with ⟨⟨sel, _ | err⟩, w⟩ <;> simp
      cases u.SortSelectors sel <;> simp
    · generalize ds.call Op.ListBundles ctx args world = r
      rcases r with ⟨⟨_ | resp, _ | err⟩, w⟩ <;> simp
      cases sortBundles resp.Bundles <;> simp
    · generalize ds.call Op.ListRegistrationEntries ctx args world = r
      rcases r with ⟨⟨_ | resp, _ | err⟩, w⟩ <;> simp
      cases u.SortRegistrationEntries resp.Entries <;> simp
  · cases op <;>
      simp [fakedatastore.DataStore.call, DataStore.getNextError, DataStore.delegate]
    · generalize ds.call Op.GetNodeSelectors ctx args world = r
      rcases r with ⟨⟨sel, _ | err⟩, w⟩ <;> simp
      cases u.SortSelectors sel <;> simp
    · generalize ds.call Op.ListBundles ctx args world = r
      rcases r with ⟨⟨_ | resp, _ | err⟩, w⟩ <;> simp
      cases sortBundles resp.Bundles <;> simp
    · generalize ds.call Op.ListRegistrationEntries ctx args world = r
      rcases r with ⟨⟨_ | resp, _ | err⟩, w⟩ <;> simp
      cases u.SortRegistrationEntries resp.Entries <;> simp
  · simp [fakedatastore.DataStore.call, DataStore.getNextError]

end fakedatastore

namespace fakedatastore

open datastore

theorem bundleOrder_iff (a b : Bundle) :
    bundleOrder a b ↔ a.TrustDomainId ≤ b.TrustDomainId := by
  simp [bundleOrder, bundleLess]

instance : IsTotal Bundle bundleOrder :=
  ⟨fun a b => by
    rw [bundleOrder_iff, bundleOrder_iff]
    exact le_total _ _⟩

instance : IsTrans Bundle bundleOrder :=
  ⟨fun a b c hab hbc => by
    rw [bundleOrder_iff] at *
    exact le_trans hab hbc⟩

theorem allNonNil_map_some {α : Type} (l : List α) : allNonNil (l.map some) = some l := by
  induction l with
  | nil => rfl
  | cons a l ih => simp [allNonNil, ih]

theorem insertionSort_short (bs : List Bundle) (h : bs.length < 2) :
    bs.insertionSort bundleOrder = bs := by
  match bs, h with
  | [], _ => rfl
  | [a], _ => rfl

theorem sortBundles_map_some (bs : List Bundle) :
    sortBundles (bs.map some) = some ((bs.insertionSort bundleOrder).map some) := by
  unfold sortBundles
  split_ifs with h
  · rw [insertionSort_short bs (by simpa using h)]
  · rw [allNonNil_map_some]
    rfl

theorem sorted_by_trust_domain (bs : List Bundle) :
    (bs.insertionSort bundleOrder).Sorted (fun a b => a.TrustDomainId ≤ b.TrustDomainId) := by
  have h := List.sorted_insertionSort bundleOrder bs
  exact h.imp (fun hab => (bundleOrder_iff _ _).mp hab)

theorem sorted_perm_unique (l₁ l₂ : List Bundle) (hp : l₁.Perm l₂)
    (hd : (l₁.map Bundle.TrustDomainId).Nodup)
    (h₁ : l₁.Sorted (fun a b => a.TrustDomainId ≤ b.TrustDomainId))
    (h₂ : l₂.Sorted (fun a b => a.TrustDomainId ≤ b.TrustDomainId)) : l₁ = l₂ := by
  have hd₂ : (l₂.map Bundle.TrustDomainId).Nodup := (hp.map _).nodup_iff.mp hd
  have strict : ∀ l : List Bundle, (l.map Bundle.TrustDomainId).Nodup →
      l.Sorted (fun a b => a.TrustDomainId ≤ b.TrustDomainId) →
      l.Sorted (fun a b => a.TrustDomainId < b.TrustDomainId) := by
    intro l hn hs
    have hne : l.Pairwise (fun a b => a.TrustDomainId ≠ b.TrustDomainId) :=
      List.pairwise_map.mp hn
    exact (List.Pairwise.and hs hne).imp (fun h => lt_of_le_of_ne h.1 h.2)
  haveI : IsAntisymm Bundle (fun a b => a.TrustDomainId < b.TrustDomainId) :=
    ⟨fun a b hab hba => absurd hba (lt_asymm hab)⟩
  exact List.eq_of_perm_of_sorted hp (strict l₁ hd h₁) (strict l₂ hd₂ h₂)


/-- With no error injected, an operation of the fake is the statements after the
error check; the head of the queue, if there is one, is dropped. -/
theorem call_not_injected {W : Type} (u : Util) (ds : datastore.DataStore W)
    (errs : List error) (op : Op) (ctx : Context) (args : Args op) (world : W)
    (hq : errs.head? = none ∨ errs.head? = some none) :
    fakedatastore.DataStore.call u { ds := ds, errs := errs } op ctx args world
      = (DataStore.delegate u ds op ctx args world).map
          (fun x => (x.1, { ds := ds, errs := errs.tail }, x.2)) := by
  rw [call_eq]
  rcases hq with h | h <;> rw [h]

/-- What `ListBundles` does after the error check when the store returns a
response of non-nil bundles and no error: the bundles are sorted. -/
theorem delegate_ListBundles_ok {W : Type} (u : Util) (ds : datastore.DataStore W)
    (ctx : Context) (req : Option ListBundlesRequest) (world : W)
    (resp : ListBundlesResponse) (bs : List Bundle)
    (hok : (ds.call .ListBundles ctx req world).1 = (some resp, none))
    (hbundles : resp.Bundles = bs.map some) :
    DataStore.delegate u ds .ListBundles ctx req world
      = some ((some { resp with Bundles := (bs.insertionSort bundleOrder).map some }, none),
              (ds.call .ListBundles ctx req world).2) := by
  have h1 : (ds.call .ListBundles ctx req world).1.1 = some resp := by rw [hok]
  have h2 : (ds.call .ListBundles ctx req world).1.2 = none := by rw [hok]
  simp only [DataStore.delegate, h1, h2, hbundles, sortBundles_map_some]

/-- What `ListBundles` does after the error check when the store returns an
error: the response and the error are handed on. -/
theorem delegate_ListBundles_error {W : Type} (u : Util) (ds : datastore.DataStore W)
    (ctx : Context) (req : Option ListBundlesRequest) (world : W) (e : Error)
    (herr : (ds.call .ListBundles ctx req world).1.2 = some e) :
    DataStore.delegate u ds .ListBundles ctx req world
      = some ((ds.call .ListBundles ctx req world).1, (ds.call .ListBundles ctx req world).2) := by
  simp only [DataStore.delegate, herr]
  rw [← herr]

end fakedatastore

namespace fakedatastore

open datastore

/-- C12: for two successful responses of the store whose bundle lists are
permutations of each other, with one bundle per trust domain, `ListBundles` of
the fake returns the same list of bundles; and that list is the only sorted
permutation there is, so a sort that is not stable returns it too. -/
theorem ListBundles_independent_of_store_order {W : Type} (u : Util)
    (ds₁ ds₂ : datastore.DataStore W) (ctx₁ ctx₂ : Context)
    (req₁ req₂ : Option ListBundlesRequest) (world₁ world₂ : W)
    (resp₁ resp₂ : ListBundlesResponse) (bs₁ bs₂ : List Bundle)
    (hok₁ : (ds₁.call .ListBundles ctx₁ req₁ world₁).1 = (some resp₁, none))
    (hok₂ : (ds₂.call .ListBundles ctx₂ req₂ world₂).1 = (some resp₂, none))
    (hbundles₁ : resp₁.Bundles = bs₁.map some) (hbundles₂ : resp₂.Bundles = bs₂.map some)
    (hperm : bs₁.Perm bs₂) (hdistinct : (bs₁.map Bundle.TrustDomainId).Nodup) :
    ∃ sorted : List Bundle,
      fakedatastore.DataStore.call u { ds := ds₁, errs := [] } .ListBundles ctx₁ req₁ world₁
        = some ((some { resp₁ with Bundles := sorted.map some }, none),
                { ds := ds₁, errs := [] }, (ds₁.call .ListBundles ctx₁ req₁ world₁).2)
      ∧ fakedatastore.DataStore.call u { ds := ds₂, errs := [] } .ListBundles ctx₂ req₂ world₂
        = some ((some { resp₂ with Bundles := sorted.map some }, none),
                { ds := ds₂, errs := [] }, (ds₂.call .ListBundles ctx₂ req₂ world₂).2)
      ∧ ∀ out : List Bundle, out.Perm bs₁ →
          out.Sorted (fun a b => a.TrustDomainId ≤ b.TrustDomainId) → out = sorted := by
  refine ⟨bs₁.insertionSort bundleOrder, ?_, ?_, ?_⟩
  · rw [call_not_injected u ds₁ [] _ _ _ _ (Or.inl rfl),
      delegate_ListBundles_ok u ds₁ ctx₁ req₁ world₁ resp₁ bs₁ hok₁ hbundles₁]
    rfl
  · have hsame : bs₂.insertionSort bundleOrder = bs₁.insertionSort bundleOrder := by
      apply sorted_perm_unique
      · exact ((List.perm_insertionSort _ bs₂).trans hperm.symm).trans
          (List.perm_insertionSort _ bs₁).symm
      · exact ((((List.perm_insertionSort bundleOrder bs₂).trans hperm.symm).map
          Bundle.TrustDomainId).nodup_iff).mpr hdistinct
      · exact sorted_by_trust_domain bs₂
      · exact sorted_by_trust_domain bs₁
    rw [call_not_injected u ds₂ [] _ _ _ _ (Or.inl rfl),
      delegate_ListBundles_ok u ds₂ ctx₂ req₂ world₂ resp₂ bs₂ hok₂ hbundles₂, hsame]
    rfl
  · intro out hout hsorted
    apply sorted_perm_unique
    · exact hout.trans (List.perm_insertionSort _ bs₁).symm
    · exact ((hout.map Bundle.TrustDomainId).nodup_iff).mpr hdistinct
    · exact hsorted
    · exact sorted_by_trust_domain bs₁

/-- C12 at a concrete input: a store that holds the bundles of two trust domains
in one order and a store that holds them in the other order. -/
theorem ListBundles_independent_of_store_order_witness :
    ∃ sorted : List Bundle,
      fakedatastore.DataStore.call samples.noSort
          { ds := telemetry.observed samples.bundleStore, errs := [] } .ListBundles
          samples.background none
          { store := [samples.exampleBundle, samples.acmeBundle], trace := [] }
        = some ((some { Bundles := sorted.map some, Pagination := none }, none),
                { ds := telemetry.observed samples.bundleStore, errs := [] },
                ((telemetry.observed samples.bundleStore).call .ListBundles samples.background none
                  { store := [samples.exampleBundle, samples.acmeBundle], trace := [] }).2)
      ∧ fakedatastore.DataStore.call samples.noSort
          { ds := telemetry.observed samples.bundleStore, errs := [] } .ListBundles
          samples.background none
          { store := [samples.acmeBundle, samples.exampleBundle], trace := [] }
        = some ((some { Bundles := sorted.map some, Pagination := none }, none),
                { ds := telemetry.observed samples.bundleStore, errs := [] },
                ((telemetry.observed samples.bundleStore).call .ListBundles samples.background none
                  { store := [samples.acmeBundle, samples.exampleBundle], trace := [] }).2)
      ∧ ∀ out : List Bundle, out.Perm [samples.exampleBundle, samples.acmeBundle] →
          out.Sorted (fun a b => a.TrustDomainId ≤ b.TrustDomainId) → out = sorted :=
  ListBundles_independent_of_store_order samples.noSort
    (telemetry.observed samples.bundleStore) (telemetry.observed samples.bundleStore)
    samples.background samples.background none none
    { store := [samples.exampleBundle, samples.acmeBundle], trace := [] }
    { store := [samples.acmeBundle, samples.exampleBundle], trace := [] }
    { Bundles := [some samples.exampleBundle, some samples.acmeBundle], Pagination := none }
    { Bundles := [some samples.acmeBundle, some samples.exampleBundle], Pagination := none }
    [samples.exampleBundle, samples.acmeBundle] [samples.acmeBundle, samples.exampleBundle]
    rfl rfl rfl rfl (List.Perm.swap _ _ _) (by decide)

/-! ### The order of strings is the byte-wise order of their UTF-8 encodings -/

theorem or_128 : ∀ z < 64, z ||| 128 = 128 + z := by decide
theorem or_192 : ∀ z < 32, z ||| 192 = 192 + z := by decide
theorem or_224 : ∀ z < 16, z ||| 224 = 224 + z := by decide
theorem or_240 : ∀ z < 8, z ||| 240 = 240 + z := by decide

theorem byte_cont (x : UInt32) : (x.toUInt8 &&& 0x3f ||| 0x80).toNat = 128 + x.toNat % 64 := by
  show (x.toUInt8 &&& 0x3f).toNat ||| 128 = _
  rw [UInt8.and_toNat, UInt32.toUInt8_toNat]
  show (x.toNat % 2 ^ 8) &&& (2 ^ 6 - 1) ||| 128 = _
  rw [Nat.and_pow_two_sub_one_eq_mod, or_128 _ (Nat.mod_lt _ (by norm_num))]
  omega

theorem byte_lead2 (x : UInt32) : (x.toUInt8 &&& 0x1f ||| 0xc0).toNat = 192 + x.toNat % 32 := by
  show (x.toUInt8 &&& 0x1f).toNat ||| 192 = _
  rw [UInt8.and_toNat, UInt32.toUInt8_toNat]
  show (x.toNat % 2 ^ 8) &&& (2 ^ 5 - 1) ||| 192 = _
  rw [Nat.and_pow_two_sub_one_eq_mod, or_192 _ (Nat.mod_lt _ (by norm_num))]
  omega

theorem byte_lead3 (x : UInt32) : (x.toUInt8 &&& 0x0f ||| 0xe0).toNat = 224 + x.toNat % 16 := by
  show (x.toUInt8 &&& 0x0f).toNat ||| 224 = _
  rw [UInt8.and_toNat, UInt32.toUInt8_toNat]
  show (x.toNat % 2 ^ 8) &&& (2 ^ 4 - 1) ||| 224 = _
  rw [Nat.and_pow_two_sub_one_eq_mod, or_224 _ (Nat.mod_lt _ (by norm_num))]
  omega

theorem byte_lead4 (x : UInt32) : (x.toUInt8 &&& 0x07 ||| 0xf0).toNat = 240 + x.toNat % 8 := by
  show (x.toUInt8 &&& 0x07).toNat ||| 240 = _
  rw [UInt8.and_toNat, UInt32.toUInt8_toNat]
  show (x.toNat % 2 ^ 8) &&& (2 ^ 3 - 1) ||| 240 = _
  rw [Nat.and_pow_two_sub_one_eq_mod, or_240 _ (Nat.mod_lt _ (by norm_num))]
  omega

theorem shr6 (v : UInt32) : (v >>> 6).toNat = v.toNat / 64 := by
  show (v.toBitVec >>> (6 : Nat)).toNat = _
  rw [BitVec.toNat_ushiftRight, Nat.shiftRight_eq_div_pow]
  rfl

theorem shr12 (v : UInt32) : (v >>> 12).toNat = v.toNat / 4096 := by
  show (v.toBitVec >>> (12 : Nat)).toNat = _
  rw [BitVec.toNat_ushiftRight, Nat.shiftRight_eq_div_pow]
  rfl

theorem shr18 (v : UInt32) : (v >>> 18).toNat = v.toNat / 262144 := by
  show (v.toBitVec >>> (18 : Nat)).toNat = _
  rw [BitVec.toNat_ushiftRight, Nat.shiftRight_eq_div_pow]
  rfl

theorem char_bound (c : Char) : c.toNat < 0x110000 := by
  have h := c.valid
  show c.val.toNat < 0x110000
  rcases h with h | ⟨_, h⟩
  · have : c.val.toNat < 0xd800 := h
    omega
  · exact h

theorem utf8_core (c : Char) :
    (String.utf8EncodeChar c).map UInt8.toNat = utf8 c.toNat := by
  have hb := char_bound c
  have h1 : (c.val ≤ 0x7f) ↔ c.toNat ≤ 0x7f := Iff.rfl
  have h2 : (c.val ≤ 0x7ff) ↔ c.toNat ≤ 0x7ff := Iff.rfl
  have h3 : (c.val ≤ 0xffff) ↔ c.toNat ≤ 0xffff := Iff.rfl
  have hv : c.val.toNat = c.toNat := rfl
  unfold String.utf8EncodeChar utf8
  simp only [h1, h2, h3]
  split_ifs <;>
    simp only [List.map_cons, List.map_nil, byte_cont, byte_lead2, byte_lead3, byte_lead4,
      shr6, shr12, shr18, UInt32.toUInt8_toNat, hv] <;>
    simp only [List.cons.injEq, and_true, true_and] <;>
    omega

theorem bytewiseLess_irrefl : ∀ l : List Nat, bytewiseLess l l = false := by
  intro l
  induction l with
  | nil => rfl
  | cons a l ih => simp [bytewiseLess, ih]

theorem bytewiseLess_asymm : ∀ l₁ l₂ : List Nat,
    bytewiseLess l₁ l₂ = true → bytewiseLess l₂ l₁ = false := by
  intro l₁
  induction l₁ with
  | nil => intro l₂ _; cases l₂ <;> rfl
  | cons a l₁ ih =>
    intro l₂ h
    cases l₂ with
    | nil => simp [bytewiseLess] at h
    | cons b l₂ =>
      simp only [bytewiseLess, Bool.or_eq_true, decide_eq_true_eq, Bool.and_eq_true] at h
      simp only [bytewiseLess, Bool.or_eq_false_iff, decide_eq_false_iff_not,
        Bool.and_eq_false_imp, decide_eq_true_eq]
      rcases h with h | ⟨h₁, h₂⟩
      · exact ⟨by omega, fun hba => by omega⟩
      · exact ⟨by omega, fun _ => ih l₂ h₂⟩

theorem bytewiseLess_append_left : ∀ p l₁ l₂ : List Nat,
    bytewiseLess (p ++ l₁) (p ++ l₂) = bytewiseLess l₁ l₂ := by
  intro p
  induction p with
  | nil => intro l₁ l₂; rfl
  | cons a p ih => intro l₁ l₂; simp [bytewiseLess, ih]

theorem utf8_ne_nil (v : Nat) : utf8 v ≠ [] := by
  unfold utf8
  split_ifs <;> simp

theorem utf8_lt (v w : Nat) (h : v < w) (t₁ t₂ : List Nat) :
    bytewiseLess (utf8 v ++ t₁) (utf8 w ++ t₂) = true := by
  unfold utf8
  split_ifs <;>
    simp only [List.cons_append, List.nil_append, bytewiseLess, Bool.or_eq_true,
      decide_eq_true_eq, Bool.and_eq_true] <;>
    omega

theorem char_lt_iff (c d : Char) : c < d ↔ c.toNat < d.toNat := Iff.rfl

theorem charBytes_lt_iff : ∀ l₁ l₂ : List Char,
    l₁ < l₂ ↔ bytewiseLess (charBytes l₁) (charBytes l₂) = true := by
  intro l₁
  induction l₁ with
  | nil =>
    intro l₂
    cases l₂ with
    | nil =>
      constructor
      · intro h; cases h
      · intro h; simp [charBytes, bytewiseLess] at h
    | cons d l₂ =>
      constructor
      · intro _
        simp only [charBytes]
        cases hu : utf8 d.toNat with
        | nil => exact absurd hu (utf8_ne_nil _)
        | cons x xs => rfl
      · intro _
        exact List.Lex.nil
  | cons c l₁ ih =>
    intro l₂
    cases l₂ with
    | nil =>
      constructor
      · intro h; cases h
      · intro h
        simp only [charBytes] at h
        cases hu : utf8 c.toNat with
        | nil => exact absurd hu (utf8_ne_nil _)
        | cons x xs => rw [hu] at h; simp [bytewiseLess] at h
    | cons d l₂ =>
      simp only [charBytes]
      rcases lt_trichotomy c d with hcd | hcd | hcd
      · constructor
        · intro _
          exact utf8_lt _ _ ((char_lt_iff c d).mp hcd) _ _
        · intro _
          exact List.Lex.rel hcd
      · subst hcd
        rw [bytewiseLess_append_left, ← ih l₂]
        constructor
        · intro h
          cases h with
          | cons h => exact h
          | rel h => exact absurd h (lt_irrefl _)
        · intro h
          exact List.Lex.cons h
      · have hfalse : bytewiseLess (utf8 c.toNat ++ charBytes l₁) (utf8 d.toNat ++ charBytes l₂)
            = false :=
          bytewiseLess_asymm _ _ (utf8_lt _ _ ((char_lt_iff d c).mp hcd) _ _)
        rw [hfalse]
        constructor
        · intro h
          cases h with
          | cons h => exact absurd hcd (lt_irrefl _)
          | rel h => exact absurd h (lt_asymm hcd)
        · intro h
          exact absurd h (by simp)

theorem stringBytes_eq (s : String) : stringBytes s = charBytes s.toList := by
  show (s.data.flatMap String.utf8EncodeChar).map UInt8.toNat = charBytes s.data
  induction s.data with
  | nil => rfl
  | cons c cs ih =>
    rw [List.flatMap_cons, List.map_append, ih, utf8_core]
    rfl

/-- The order of `String` is the byte-wise order of the UTF-8 encodings. -/
theorem string_lt_iff_bytewise (s t : String) :
    s < t ↔ bytewiseLess (stringBytes s) (stringBytes t) = true := by
  rw [String.lt_iff_toList_lt, stringBytes_eq, stringBytes_eq]
  exact charBytes_lt_iff s.toList t.toList

theorem string_le_iff_bytewise (s t : String) :
    s ≤ t ↔ bytewiseLess (stringBytes t) (stringBytes s) = false := by
  rw [← not_lt, string_lt_iff_bytewise]
  simp

/-- C13: with no error injected, when `ListBundles` of the store returns a
response of non-nil bundles and no error, the fake returns that response with
the bundles rearranged: the returned list is a permutation of the list of the
store and is in non-decreasing order of `TrustDomainId`, both in the order of
`String` and, which is the same, in the byte-wise order of the UTF-8 encodings
that Go's `<` compares; when the store returns an error, the fake returns the
response and the error of the store as they are. -/
theorem ListBundles_sorted_permutation {W : Type} (u : Util) (ds : datastore.DataStore W)
    (errs : List error) (ctx : Context) (req : Option ListBundlesRequest) (world : W)
    (resp : ListBundlesResponse) (bs : List Bundle)
    (hq : errs.head? = none ∨ errs.head? = some none)
    (hok : (ds.call .ListBundles ctx req world).1 = (some resp, none))
    (hbundles : resp.Bundles = bs.map some) :
    (∃ sorted : List Bundle,
      fakedatastore.DataStore.call u { ds := ds, errs := errs } .ListBundles ctx req world
        = some ((some { resp with Bundles := sorted.map some }, none),
                { ds := ds, errs := errs.tail }, (ds.call .ListBundles ctx req world).2)
      ∧ sorted.Perm bs
      ∧ (∀ b : Bundle, sorted.count b = bs.count b)
      ∧ sorted.Sorted (fun a b => a.TrustDomainId ≤ b.TrustDomainId)
      ∧ sorted.Sorted (fun a b =>
          bytewiseLess (stringBytes b.TrustDomainId) (stringBytes a.TrustDomainId) = false))
    ∧ ∀ (ds' : datastore.DataStore W) (e : Error),
        (ds'.call .ListBundles ctx req world).1.2 = some e →
        fakedatastore.DataStore.call u { ds := ds', errs := errs } .ListBundles ctx req world
          = some ((ds'.call .ListBundles ctx req world).1, { ds := ds', errs := errs.tail },
                  (ds'.call .ListBundles ctx req world).2) := by
  refine ⟨⟨bs.insertionSort bundleOrder, ?_, List.perm_insertionSort _ bs,
    fun b => (List.perm_insertionSort _ bs).count_eq b, sorted_by_trust_domain bs,
    (sorted_by_trust_domain bs).imp (fun h => (string_le_iff_bytewise _ _).mp h)⟩, ?_⟩
  · rw [call_not_injected u ds errs _ _ _ _ hq,
      delegate_ListBundles_ok u ds ctx req world resp bs hok hbundles]
    rfl
  · intro ds' e herr
    rw [call_not_injected u ds' errs _ _ _ _ hq,
      delegate_ListBundles_error u ds' ctx req world e herr]
    rfl

/-- C13 at a concrete input: the store holds two bundles, the one that sorts
second first; the fake returns them sorted.  A store that fails has its error
returned. -/
theorem ListBundles_sorted_permutation_witness :
    (∃ sorted : List Bundle,
      fakedatastore.DataStore.call samples.noSort
          { ds := telemetry.observed samples.bundleStore, errs := [none] } .ListBundles
          samples.background none
          { store := [samples.exampleBundle, samples.acmeBundle], trace := [] }
        = some ((some { Bundles := sorted.map some, Pagination := none }, none),
                { ds := telemetry.observed samples.bundleStore, errs := [] },
                { store := [samples.exampleBundle, samples.acmeBundle],
                  trace := [telemetry.Event.call .ListBundles samples.background none] })
      ∧ sorted.Perm [samples.exampleBundle, samples.acmeBundle]
      ∧ sorted.Sorted (fun a b =>
          bytewiseLess (stringBytes b.TrustDomainId) (stringBytes a.TrustDomainId) = false))
    ∧ fakedatastore.DataStore.call samples.noSort
        { ds := telemetry.observed samples.brokenStore, errs := [none] } .ListBundles
        samples.background none
        { store := [samples.exampleBundle, samples.acmeBundle], trace := [] }
      = some ((none, some { code := Code.Internal, msg := "database is locked" }),
              { ds := telemetry.observed samples.brokenStore, errs := [] },
              { store := [samples.exampleBundle, samples.acmeBundle],
                trace := [telemetry.Event.call .ListBundles samples.background none] }) := by
  have h := ListBundles_sorted_permutation samples.noSort
    (telemetry.observed samples.bundleStore) [none] samples.background none
    { store := [samples.exampleBundle, samples.acmeBundle], trace := [] }
    { Bundles := [some samples.exampleBundle, some samples.acmeBundle], Pagination := none }
    [samples.exampleBundle, samples.acmeBundle] (Or.inr rfl) rfl rfl
  refine ⟨?_, ?_⟩
  · obtain ⟨⟨sorted, hcall, hperm, -, -, hsorted⟩, -⟩ := h
    exact ⟨sorted, hcall, hperm, hsorted⟩
  · exact h.2 (telemetry.observed samples.brokenStore)
      { code := Code.Internal, msg := "database is locked" } rfl

end fakedatastore

namespace fakedatastore

open datastore

/-- A call that returns leaves the fake with its store and with the tail of the
queue: one entry less, or none when the queue was empty. -/
theorem call_queue {W : Type} (u : Util) (ds : datastore.DataStore W) (errs : List error)
    (op : Op) (ctx : Context) (args : Args op) (world world' : W) (r : Ret op)
    (s' : DataStore W)
    (h : fakedatastore.DataStore.call u { ds := ds, errs := errs } op ctx args world
          = some (r, s', world')) :
    s' = { ds := ds, errs := errs.tail } := by
  rw [call_eq] at h
  split at h
  · simp only [Option.some.injEq, Prod.mk.injEq] at h
    exact h.2.1.symm
  · cases hd : DataStore.delegate u ds op ctx args world with
    | none => rw [hd] at h; simp at h
    | some x =>
      rw [hd] at h
      simp only [Option.map_some', Option.some.injEq, Prod.mk.injEq] at h
      exact h.2.1.symm

/-- After calls that returned, the fake has its store and the queue without as
many entries as there were calls. -/
theorem run_queue {W : Type} (u : Util) (ds : datastore.DataStore W) :
    ∀ (cs : List Invocation) (errs : List error) (world world' : W) (rs : List Outcome)
      (s' : DataStore W),
      DataStore.run u { ds := ds, errs := errs } world cs = some (rs, s', world') →
      s' = { ds := ds, errs := errs.drop cs.length } := by
  intro cs
  induction cs with
  | nil =>
    intro errs world world' rs s' h
    simp only [DataStore.run, Option.some.injEq, Prod.mk.injEq] at h
    simpa using h.2.1.symm
  | cons c cs ih =>
    intro errs world world' rs s' h
    simp only [DataStore.run] at h
    cases hc : fakedatastore.DataStore.call u { ds := ds, errs := errs } c.op c.ctx c.args world with
    | none => rw [hc] at h; simp at h
    | some x =>
      obtain ⟨r, s₁, w₁⟩ := x
      rw [hc] at h
      have hs₁ := call_queue u ds errs c.op c.ctx c.args world w₁ r s₁ hc
      subst hs₁
      simp only at h
      cases hr : DataStore.run u { ds := ds, errs := errs.tail } w₁ cs with
      | none => rw [hr] at h; simp at h
      | some y =>
        obtain ⟨rs', s₂, w₂⟩ := y
        rw [hr] at h
        simp only [Option.some.injEq, Prod.mk.injEq] at h
        have := ih errs.tail w₁ w₂ rs' s₂ hr
        rw [← h.2.1, this, List.drop_tail]
        rfl

/-- Calls on the fake with an empty queue all go to the store, and the queue
stays empty. -/
theorem run_empty {W : Type} (u : Util) (ds : datastore.DataStore W) :
    ∀ (cs : List Invocation) (world : W),
      DataStore.run u { ds := ds, errs := [] } world cs
        = (delegateAll u ds world cs).map (fun x => (x.1, { ds := ds, errs := [] }, x.2)) := by
  intro cs
  induction cs with
  | nil => intro world; rfl
  | cons c cs ih =>
    intro world
    simp only [DataStore.run, delegateAll]
    rw [call_not_injected u ds [] _ _ _ _ (Or.inl rfl)]
    cases hd : DataStore.delegate u ds c.op c.ctx c.args world with
    | none => rfl
    | some x =>
      obtain ⟨r, w₁⟩ := x
      simp only [Option.map_some', List.tail_nil]
      rw [ih w₁]
      cases delegateAll u ds w₁ cs with
      | none => rfl
      | some y => rfl

/-- Calls on the fake follow the first-in-first-out queue. -/
theorem run_fifo {W : Type} (u : Util) (ds : datastore.DataStore W) :
    ∀ (cs : List Invocation) (errs : List error) (world : W),
      DataStore.run u { ds := ds, errs := errs } world cs
        = (fifo u ds errs world cs).map (fun x => (x.1, { ds := ds, errs := x.2.1 }, x.2.2)) := by
  intro cs
  induction cs with
  | nil => intro errs world; simp [DataStore.run, fifo]
  | cons c cs ih =>
    intro errs world
    rcases errs with _ | ⟨_ | e, rest⟩
    · simp only [DataStore.run, fifo]
      rw [call_not_injected u ds [] _ _ _ _ (Or.inl rfl)]
      cases hd : DataStore.delegate u ds c.op c.ctx c.args world with
      | none => rfl
      | some x =>
        obtain ⟨r, w₁⟩ := x
        simp only [Option.map_some', List.tail_nil]
        rw [ih [] w₁]
        cases fifo u ds [] w₁ cs with
        | none => rfl
        | some y => rfl
    · simp only [DataStore.run, fifo]
      rw [call_not_injected u ds (none :: rest) _ _ _ _ (Or.inr rfl)]
      cases hd : DataStore.delegate u ds c.op c.ctx c.args world with
      | none => rfl
      | some x =>
        obtain ⟨r, w₁⟩ := x
        simp only [Option.map_some', List.tail_cons]
        rw [ih rest w₁]
        cases fifo u ds rest w₁ cs with
        | none => rfl
        | some y => rfl
    · simp only [DataStore.run, fifo]
      rw [call_eq]
      simp only [List.head?_cons, List.tail_cons]
      rw [ih rest world]
      cases fifo u ds rest world cs with
      | none => rfl
      | some y => rfl

/-- The queue after `AppendNextError` has been called with each of `es` in
turn, starting from an empty queue, is `es`. -/
theorem append_all {W : Type} (ds : datastore.DataStore W) (es : List error) :
    ∀ start : List error,
      es.foldl DataStore.AppendNextError { ds := ds, errs := start }
        = { ds := ds, errs := start ++ es } := by
  induction es with
  | nil => intro start; simp
  | cons e es ih =>
    intro start
    simp only [List.foldl_cons, DataStore.AppendNextError]
    rw [ih]
    simp

end fakedatastore

namespace fakedatastore

open datastore

/-- For an operation other than `ListBundles`, `ListRegistrationEntries` and
`GetNodeSelectors`, the statements after the error check are one call of the
same operation of the store with the same arguments. -/
theorem delegate_plain {W : Type} (u : Util) (ds : datastore.DataStore W) (op : Op)
    (ctx : Context) (args : Args op) (world : W)
    (hop : op ≠ .ListBundles ∧ op ≠ .ListRegistrationEntries ∧ op ≠ .GetNodeSelectors) :
    DataStore.delegate u ds op ctx args world = some (ds.call op ctx args world) := by
  obtain ⟨h₁, h₂, h₃⟩ := hop
  cases op <;> first | rfl | exact absurd rfl h₁ | exact absurd rfl h₂ | exact absurd rfl h₃

/-- C14: the injected errors are a first-in-first-out queue.  After
`AppendNextError(e₁)`, ..., `AppendNextError(eₙ)` on an empty queue the queue is
`e₁, ..., eₙ`; a sequence of calls follows the queue entry by entry; after `k`
calls that returned, `k` entries are gone, and the next call returns `eₖ₊₁`
with zero results and the store untouched when that entry is a non-nil error,
and runs the statements after the error check, which go to the store, when the
entry is nil or the queue is used up; in both cases the entry is gone
afterwards.  In particular after `AppendNextError(nil)` and
`AppendNextError(e)` the first call goes to the store and the second returns
`e`. -/
theorem injected_errors_are_fifo {W : Type} (u : Util) (ds : datastore.DataStore W)
    (es : List error) (world : W) (e : Error) (c₁ c₂ : Invocation) :
    es.foldl DataStore.AppendNextError { ds := ds, errs := [] } = { ds := ds, errs := es }
    ∧ (∀ cs : List Invocation,
        DataStore.run u (es.foldl DataStore.AppendNextError { ds := ds, errs := [] }) world cs
          = (fifo u ds es world cs).map
              (fun x => (x.1, { ds := ds, errs := x.2.1 }, x.2.2)))
    ∧ (∀ (cs : List Invocation) (rs : List Outcome) (s : DataStore W) (world' : W),
        DataStore.run u (es.foldl DataStore.AppendNextError { ds := ds, errs := [] }) world cs
          = some (rs, s, world') →
        s = { ds := ds, errs := es.drop cs.length }
        ∧ ∀ c : Invocation,
            fakedatastore.DataStore.call u s c.op c.ctx c.args world'
              = match es[cs.length]? with
                | some (some err) =>
                  some ((zero c.op, some err),
                        { ds := ds, errs := es.drop (cs.length + 1) }, world')
                | _ =>
                  (DataStore.delegate u ds c.op c.ctx c.args world').map
                    (fun x => (x.1, { ds := ds, errs := es.drop (cs.length + 1) }, x.2)))
    ∧ (∀ (op : Op) (ctx : Context) (args : Args op) (world' : W),
        op ≠ .ListBundles ∧ op ≠ .ListRegistrationEntries ∧ op ≠ .GetNodeSelectors →
        DataStore.delegate u ds op ctx args world' = some (ds.call op ctx args world'))
    ∧ DataStore.run u
        ((DataStore.AppendNextError { ds := ds, errs := [] } none).AppendNextError (some e))
        world [c₁, c₂]
      = (DataStore.delegate u ds c₁.op c₁.ctx c₁.args world).map
          (fun x => ([{ op := c₁.op, ret := x.1 }, { op := c₂.op, ret := (zero c₂.op, some e) }],
                     { ds := ds, errs := [] }, x.2)) := by
  have happ : es.foldl DataStore.AppendNextError { ds := ds, errs := [] }
      = { ds := ds, errs := es } := by
    rw [append_all]
    simp
  refine ⟨happ, ?_, ?_, ?_, ?_⟩
  · intro cs
    rw [happ, run_fifo]
  · intro cs rs s world' hrun
    rw [happ] at hrun
    have hs := run_queue u ds cs es world world' rs s hrun
    refine ⟨hs, ?_⟩
    intro c
    rw [hs, call_eq, List.head?_drop, List.tail_drop]
  · intro op ctx args world' hop
    exact delegate_plain u ds op ctx args world' hop
  · simp only [DataStore.AppendNextError, List.nil_append, List.singleton_append]
    rw [run_fifo]
    simp only [fifo]
    cases DataStore.delegate u ds c₁.op c₁.ctx c₁.args world with
    | none => rfl
    | some x => rfl

/-- C15: when the head of the queue is a non-nil error `e`, every operation of
the fake returns `e` with the zero results of the operation (nil for an entity,
a response, a map or a slice, `0` for a count, `false` for a flag) and leaves the
store as it was; over a store no invocation is recorded. -/
theorem injected_error_short_circuits {W σ : Type} (u : Util) (ds : datastore.DataStore W)
    (b : telemetry.Backend σ) (e : Error) (rest : List error) (op : Op) (ctx : Context)
    (args : Args op) (world : W) (observedWorld : telemetry.World σ) :
    fakedatastore.DataStore.call u { ds := ds, errs := some e :: rest } op ctx args world
      = some ((zero op, some e), { ds := ds, errs := rest }, world)
    ∧ (fakedatastore.DataStore.call u { ds := telemetry.observed b, errs := some e :: rest } op
          ctx args observedWorld).map
        (fun x => (x.1, x.2.2.store, telemetry.storeCalls x.2.2.trace))
      = some ((zero op, some e), observedWorld.store, telemetry.storeCalls observedWorld.trace)
    ∧ zero .CreateBundle = none ∧ zero .ListBundles = none
    ∧ zero .FetchRegistrationEntries = [] ∧ zero .GetNodeSelectors = []
    ∧ zero .ListCAJournalsForTesting = []
    ∧ zero .CountBundles = 0 ∧ zero .CountAttestedNodes = 0
    ∧ zero .CountRegistrationEntries = 0 ∧ zero .PruneBundle = false
    ∧ zero .CreateOrReturnRegistrationEntry = (none, false) := by
  refine ⟨?_, ?_, rfl, rfl, rfl, rfl, rfl, rfl, rfl, rfl, rfl, rfl⟩
  · rw [call_eq]
    rfl
  · rw [call_eq]
    rfl

/-- C17: whatever the queue holds, after `SetNextError(e)` with a non-nil `e`
the queue is `e` alone, the next call returns `e` with zero results and leaves
the store alone, the queue is empty after it, and all calls after it go to the
store. -/
theorem SetNextError_replaces_queue {W : Type} (u : Util) (s : DataStore W) (e : Error)
    (c : Invocation) (cs : List Invocation) (world : W) :
    s.SetNextError (some e) = { ds := s.ds, errs := [some e] }
    ∧ fakedatastore.DataStore.call u (s.SetNextError (some e)) c.op c.ctx c.args world
        = some ((zero c.op, some e), { ds := s.ds, errs := [] }, world)
    ∧ DataStore.run u (s.SetNextError (some e)) world (c :: cs)
        = (delegateAll u s.ds world cs).map
            (fun x => ({ op := c.op, ret := (zero c.op, some e) } :: x.1,
                       { ds := s.ds, errs := [] }, x.2))
    ∧ DataStore.run u { ds := s.ds, errs := [] } world cs
        = (delegateAll u s.ds world cs).map (fun x => (x.1, { ds := s.ds, errs := [] }, x.2)) := by
  have hcall : fakedatastore.DataStore.call u (s.SetNextError (some e)) c.op c.ctx c.args world
      = some ((zero c.op, some e), { ds := s.ds, errs := [] }, world) := by
    simp only [DataStore.SetNextError]
    rw [call_eq]
    rfl
  refine ⟨rfl, hcall, ?_, run_empty u s.ds cs world⟩
  simp only [DataStore.run, hcall]
  rw [run_empty]
  cases delegateAll u s.ds world cs with
  | none => rfl
  | some x => rfl

end fakedatastore

namespace fakedatastore

open datastore

/-- When the store returns an error, the statements after the error check hand
on the results and the error of the store, for every operation. -/
theorem delegate_error {W : Type} (u : Util) (ds : datastore.DataStore W) (op : Op)
    (ctx : Context) (args : Args op) (world : W) (e : Error)
    (herr : (ds.call op ctx args world).1.2 = some e) :
    DataStore.delegate u ds op ctx args world = some (ds.call op ctx args world) := by
  by_cases hop : op ≠ .ListBundles ∧ op ≠ .ListRegistrationEntries ∧ op ≠ .GetNodeSelectors
  · exact delegate_plain u ds op ctx args world hop
  · cases op <;> simp at hop
    · simp only [DataStore.delegate, herr]
      rw [← herr]
    · simp only [DataStore.delegate, herr]
      rw [← herr]
    · simp only [DataStore.delegate, herr]
      rw [← herr]

/-- A sort function that sorts and panics only on a nil element returns, for
every slice without a nil element, a permutation of it. -/
theorem sortNonNil_perm {α : Type} (le : α → α → Bool) (xs : List α) :
    ∃ out, samples.sortNonNil le (xs.map some) = some out ∧ out.Perm (xs.map some) := by
  unfold samples.sortNonNil
  split_ifs with h
  · exact ⟨_, rfl, List.Perm.refl _⟩
  · rw [allNonNil_map_some]
    exact ⟨_, rfl, (List.perm_insertionSort _ xs).map some⟩

/-- C16: with an empty error queue, an operation of the fake other than
`ListBundles`, `ListRegistrationEntries` and `GetNodeSelectors` returns the
results and the error of the same operation of the store, called once with the
same arguments, leaves the store as that one call leaves it and leaves the queue
empty; over a store it is recorded as one invocation.  For the three operations
the same holds when the store returns an error.  When the store returns a
response and no error, the fake returns that response, error and state of the
store with the list alone replaced: for `ListBundles` by the bundles sorted, a
permutation of the bundles of the store; for `ListRegistrationEntries` and
`GetNodeSelectors` by what the sort function of `pkg/common/util` returns for
the list of the store, which has the elements of that list in another order
whenever that function returns a permutation of it. -/
theorem fake_transparent_on_empty_queue {W : Type} (u : Util) (ds : datastore.DataStore W)
    (ctx : Context) (world : W) :
    (∀ (op : Op) (args : Args op),
        op ≠ .ListBundles ∧ op ≠ .ListRegistrationEntries ∧ op ≠ .GetNodeSelectors →
        fakedatastore.DataStore.call u { ds := ds, errs := [] } op ctx args world
          = some ((ds.call op ctx args world).1, { ds := ds, errs := [] },
                  (ds.call op ctx args world).2))
    ∧ (∀ (op : Op) (args : Args op) (e : Error),
        (ds.call op ctx args world).1.2 = some e →
        fakedatastore.DataStore.call u { ds := ds, errs := [] } op ctx args world
          = some ((ds.call op ctx args world).1, { ds := ds, errs := [] },
                  (ds.call op ctx args world).2))
    ∧ (∀ (req : Option ListBundlesRequest) (resp : ListBundlesResponse) (bs : List Bundle),
        (ds.call .ListBundles ctx req world).1 = (some resp, none) →
        resp.Bundles = bs.map some →
        ∃ sorted : List (Option Bundle),
          fakedatastore.DataStore.call u { ds := ds, errs := [] } .ListBundles ctx req world
            = some ((some { resp with Bundles := sorted }, none), { ds := ds, errs := [] },
                    (ds.call .ListBundles ctx req world).2)
          ∧ sorted.Perm resp.Bundles)
    ∧ (∀ (req : Option ListRegistrationEntriesRequest) (resp : ListRegistrationEntriesResponse)
        (sorted : List (Option RegistrationEntry)),
        (ds.call .ListRegistrationEntries ctx req world).1 = (some resp, none) →
        u.SortRegistrationEntries resp.Entries = some sorted →
        fakedatastore.DataStore.call u { ds := ds, errs := [] } .ListRegistrationEntries
            ctx req world
          = some ((some { resp with Entries := sorted }, none), { ds := ds, errs := [] },
                  (ds.call .ListRegistrationEntries ctx req world).2)
        ∧ (sorted.Perm resp.Entries →
            sorted.length = resp.Entries.length
            ∧ ∀ entry, sorted.countP (fun x => decide (x = entry))
                = resp.Entries.countP (fun x => decide (x = entry))))
    ∧ (∀ (args : String × DataConsistency) (sorted : List (Option Selector)),
        (ds.call .GetNodeSelectors ctx args world).1.2 = none →
        u.SortSelectors (ds.call .GetNodeSelectors ctx args world).1.1 = some sorted →
        fakedatastore.DataStore.call u { ds := ds, errs := [] } .GetNodeSelectors ctx args world
          = some ((sorted, none), { ds := ds, errs := [] },
                  (ds.call .GetNodeSelectors ctx args world).2)
        ∧ (sorted.Perm (ds.call .GetNodeSelectors ctx args world).1.1 →
            sorted.length = (ds.call .GetNodeSelectors ctx args world).1.1.length
            ∧ ∀ selector, sorted.countP (fun x => decide (x = selector))
                = (ds.call .GetNodeSelectors ctx args world).1.1.countP
                    (fun x => decide (x = selector))))
    ∧ (∀ (σ : Type) (b : telemetry.Backend σ) (w : telemetry.World σ) (op : Op)
        (args : Args op),
        op ≠ .ListBundles ∧ op ≠ .ListRegistrationEntries ∧ op ≠ .GetNodeSelectors →
        (fakedatastore.DataStore.call u { ds := telemetry.observed b, errs := [] } op ctx args
            w).map (fun x => (x.1, x.2.2.store, telemetry.storeCalls x.2.2.trace))
          = some ((b op ctx args w.store).1, (b op ctx args w.store).2,
                  telemetry.storeCalls w.trace ++ [telemetry.Event.call op ctx args])) := by
  refine ⟨?_, ?_, ?_, ?_, ?_, ?_⟩
  · intro op args hop
    rw [call_not_injected u ds [] _ _ _ _ (Or.inl rfl), delegate_plain u ds op ctx args world hop]
    rfl
  · intro op args e herr
    rw [call_not_injected u ds [] _ _ _ _ (Or.inl rfl), delegate_error u ds op ctx args world e herr]
    rfl
  · intro req resp bs hok hbundles
    refine ⟨(bs.insertionSort bundleOrder).map some, ?_, ?_⟩
    · rw [call_not_injected u ds [] _ _ _ _ (Or.inl rfl),
        delegate_ListBundles_ok u ds ctx req world resp bs hok hbundles]
      rfl
    · rw [hbundles]
      exact (List.perm_insertionSort bundleOrder bs).map some
  · intro req resp sorted hok hsort
    refine ⟨?_, fun hperm => ⟨hperm.length_eq, fun _ => hperm.countP_eq _⟩⟩
    have h1 : (ds.call .ListRegistrationEntries ctx req world).1.1 = some resp := by rw [hok]
    have h2 : (ds.call .ListRegistrationEntries ctx req world).1.2 = none := by rw [hok]
    rw [call_not_injected u ds [] _ _ _ _ (Or.inl rfl)]
    simp only [DataStore.delegate, h1, h2, hsort]
    rfl
  · intro args sorted hok hsort
    refine ⟨?_, fun hperm => ⟨hperm.length_eq, fun _ => hperm.countP_eq _⟩⟩
    rw [call_not_injected u ds [] _ _ _ _ (Or.inl rfl)]
    simp only [DataStore.delegate, hok, hsort]
    rfl
  · intro σ b w op args hop
    rw [call_not_injected u _ [] _ _ _ _ (Or.inl rfl), delegate_plain u _ op ctx args w hop]
    simp [telemetry.observed, telemetry.storeCalls_append, telemetry.storeCalls]

/-- C16 at concrete inputs, with sort functions that sort and panic on a nil
element: over a store that returns two selectors and two entries out of order,
`GetNodeSelectors` and `ListRegistrationEntries` of the fake return them in
order and leave the store as the one call left it; over the in-memory store
`CreateOrReturnRegistrationEntry` returns what the store returns. -/
theorem fake_transparent_on_empty_queue_witness :
    fakedatastore.DataStore.call samples.sortingUtil
        { ds := telemetry.observed samples.listingStore, errs := [] } .GetNodeSelectors
        samples.background ("spiffe://example.org/agent", DataConsistency.RequireConsistency)
        samples.listingWorld
      = some (([some samples.nsSelector, some samples.uidSelector], none),
              { ds := telemetry.observed samples.listingStore, errs := [] },
              ((telemetry.observed samples.listingStore).call .GetNodeSelectors
                samples.background
                ("spiffe://example.org/agent", DataConsistency.RequireConsistency)
                samples.listingWorld).2)
    ∧ fakedatastore.DataStore.call samples.sortingUtil
        { ds := telemetry.observed samples.listingStore, errs := [] } .ListRegistrationEntries
        samples.background none samples.listingWorld
      = some ((some { Entries := [some samples.dbEntry, some samples.webEntry],
                      Pagination := none }, none),
              { ds := telemetry.observed samples.listingStore, errs := [] },
              ((telemetry.observed samples.listingStore).call .ListRegistrationEntries
                samples.background none samples.listingWorld).2)
    ∧ fakedatastore.DataStore.call samples.sortingUtil
        { ds := telemetry.observed samples.memStore, errs := [] }
        .CreateOrReturnRegistrationEntry samples.background (some samples.webEntry)
        samples.emptyWorld
      = some (((telemetry.observed samples.memStore).call .CreateOrReturnRegistrationEntry
                samples.background (some samples.webEntry) samples.emptyWorld).1,
              { ds := telemetry.observed samples.memStore, errs := [] },
              ((telemetry.observed samples.memStore).call .CreateOrReturnRegistrationEntry
                samples.background (some samples.webEntry) samples.emptyWorld).2) :=
  ⟨((fake_transparent_on_empty_queue samples.sortingUtil
        (telemetry.observed samples.listingStore) samples.background
        samples.listingWorld).2.2.2.2.1
      ("spiffe://example.org/agent", DataConsistency.RequireConsistency)
      [some samples.nsSelector, some samples.uidSelector] rfl (by decide)).1,
   ((fake_transparent_on_empty_queue samples.sortingUtil
        (telemetry.observed samples.listingStore) samples.background
        samples.listingWorld).2.2.2.1
      none { Entries := [some samples.webEntry, some samples.dbEntry], Pagination := none }
      [some samples.dbEntry, some samples.webEntry] rfl (by decide)).1,
   (fake_transparent_on_empty_queue samples.sortingUtil (telemetry.observed samples.memStore)
      samples.background samples.emptyWorld).1
    .CreateOrReturnRegistrationEntry (some samples.webEntry) ⟨by decide, by decide, by decide⟩⟩

end fakedatastore
